import Mathlib

/-!
The Substrate client of `src/main/substrate_interface.c` (s-beta)

A shallow embedding of the request dispatcher (`rpc_request`), the client
bootstrap (`init_client`), the accessors built on the dispatcher (`sc_chain`,
`sc_get_block_hash`, ...), the runtime sequencer (`init_runtime`) and the
metadata cache (`cache_metadata`, `metadata_is_cached`).

Conventions of the embedding

* The global `Self` becomes an explicit `Client` value threaded through every
  operation.  Pointers to singly allocated structs (`Self.config`,
  `Self.properties`, ...) are represented by the struct they point to, C strings
  by `String`, nullable `char*` by `Option String`, and C `int` by `Int`.  The
  one `int` the code does arithmetic on is the request counter: its increment
  is taken modulo 2^32 into the signed range (`wrap_int`), which is what the
  two's-complement targets do at `INT_MAX`.
* The `struct Req_queue` blocks that `rpc_request` allocates are kept in
  `Client.req_nodes`, in allocation order, and the message queue is the list of
  the indices of the blocks handed to `append_rpc_message`: a block that is
  parsed into again changes under every queue entry that names it.
* `exit(1)` and a dereference of `NULL` end a run; they are the `exited` and
  `crashed` constructors of `Outcome`.
* Everything the file does not define itself (the transport of `network.h`,
  the helpers of `utility.h`) is a field of `Node`: the k-th call of
  `websocket_send` returns `websocket_send k`, the k-th inbound message decodes
  to `parse_json_string k`, and so on.  Quantifying over `Node` covers every
  behaviour of the remote node and of the helpers.  The one exception is
  `append_rpc_message`, which is taken to link the block at the end of the
  queue.
* Loops and the recursive retry of `rpc_request` take a fuel argument; running
  out of fuel is the `waiting` outcome (the C code is still spinning).
* Four bookkeeping fields of `Client` (`payloads`, `sends`, `recvd`,
  `connects`) record what the run did to the outside world; no modelled
  function reads them except to index the `Node` oracles.
-/

namespace SBeta

/-! The data model -/

/-- One decoded inbound message (`struct Req_queue`, filled by `parse_json_string`). -/
structure Req_queue where
  id : Int
  result : Option String
  err_flag : Bool
deriving DecidableEq

/-- The request envelope `struct Payload` built by `rpc_request`. -/
structure Payload where
  jsonrpc : String
  method : String
  params : List String
  id : Int
deriving DecidableEq

/-- One node of the linked list `Self.m_cache`. -/
structure Metadata_Cache where
  runtime_v : Int
  metadata : String
deriving DecidableEq

/-- The descriptor written by `decode_runtime_string`. -/
structure Runtime_Version where
  spec_version : Int
  transaction_version : Int
deriving DecidableEq

/-- The part of `struct Block` that `init_runtime` and `sc_get_block_number` read. -/
structure Block where
  parent_hash : String
  block_number : Int
deriving DecidableEq

/-- The struct behind `Self.config`. -/
structure Config where
  use_remote_preset : Bool
  auto_discover : Bool
  auto_reconnect : Bool
deriving DecidableEq

/-- The struct behind `Self.ws_options`. -/
structure Ws_option where
  max_size : Int
  read_limit : Int
  write_limit : Int
deriving DecidableEq

/-- The struct behind `Self.default_handlers`. -/
structure Default_Handlers where
  content_type : String
  cache_control : String
deriving DecidableEq

/-- The global `Self`.  The linked list `m_cache` is the list of its nodes, head
first.  `req_nodes` is the heap of `struct Req_queue` blocks allocated by
`rpc_request` (line 160), in allocation order, each with its current content
(`none` until `parse_json_string` first writes it); `rpc_message_queue` lists,
head first, the blocks handed to `append_rpc_message`, each by its index in
`req_nodes`.  `payloads`, `sends`, `recvd` and `connects` are bookkeeping: the
envelopes built so far (one per `rpc_request` invocation), the number of
`websocket_send` calls, of inbound messages consumed and of `libwsclient_new`
calls. -/
structure Client where
  url : String
  websocket : Int
  request_id : Int
  config : Config
  ss58Format : Int
  type_registry_preset : String
  ws_options : Option Ws_option
  default_handlers : Default_Handlers
  name : Option String
  chain : Option String
  version : Option String
  block_hash : String
  block_id : Int
  runtime_version : Int
  transaction_version : Int
  m_cache : List Metadata_Cache
  rpc_message_queue : List Nat
  req_nodes : List (Option Req_queue)
  payloads : List Payload
  sends : Nat
  recvd : Nat
  connects : Nat
deriving DecidableEq

/-- The collaborators that live outside `substrate_interface.c`. -/
structure Node where
  /-- Return value of the k-th `websocket_send` call (`-1` is failure). -/
  websocket_send : Nat → Int
  /-- Record that `parse_json_string` extracts from the k-th inbound message. -/
  parse_json_string : Nat → Req_queue
  /-- Socket descriptor of the client made by the k-th `libwsclient_new` call
  (`network.c`, `connect_websock`); `none` when it returns `NULL`. -/
  libwsclient_new : Nat → Option Int
  /-- The helper `slice(str, buf, start, end)` of `utility.h`. -/
  slice : String → Nat → Nat → String
  /-- Truth value of `zero_buffer()` where `init_client` uses it as an operand of `&&`. -/
  zero_buffer : Bool
  /-- The helper `hex_to_int` of `utility.h` (it is also called on `NULL`). -/
  hex_to_int : Option String → Int
  /-- The helper `clear_n_copy(dst, src)` of `utility.h`: the new content of `dst`. -/
  clear_n_copy : String → Option String → String
  /-- The helper `parse_and_cache_block(buf, kind)` of `utility.h`. -/
  parse_and_cache_block : Option String → String → Block
  /-- The helper `decode_runtime_string(runv, buf)` of `utility.h`: the new `*runv`. -/
  decode_runtime_string : Runtime_Version → String → Runtime_Version

/-- How a run of one operation ends. -/
inductive Outcome (α : Type) where
  /-- The function returned `v`. -/
  | ret (v : α) (st : Client)
  /-- The process called `exit(1)` after printing `msg`. -/
  | exited (msg : String) (st : Client)
  /-- The process dereferenced `NULL`. -/
  | crashed (st : Client)
  /-- Fuel ran out: the code is still waiting or still retrying. -/
  | waiting (st : Client)
deriving DecidableEq

/-! Outcomes and sequencing -/

/-- The `Client` at the end of a run. -/
def Outcome.state {α : Type} : Outcome α → Client
  | .ret _ st => st
  | .exited _ st => st
  | .crashed st => st
  | .waiting st => st

/-- The returned value, when the run returned. -/
def Outcome.value {α : Type} : Outcome α → Option α
  | .ret v _ => some v
  | _ => none

/-- Sequencing: the continuation runs only when the first part returned. -/
def Outcome.bind {α β : Type} (o : Outcome α) (k : α → Client → Outcome β) : Outcome β :=
  match o with
  | .ret v st => k v st
  | .exited msg st => .exited msg st
  | .crashed st => .crashed st
  | .waiting st => .waiting st

/-! The dispatcher -/

/-- Function `free_all_mem`, lines 255-263: the loop runs until
`Self.rpc_message_queue` is `NULL` (`remove_rpc_message` of `utility.h` releases
one node); the two scratch buffers it frees are not tracked. -/
def free_all_mem (st : Client) : Client :=
  { st with rpc_message_queue := [] }

/-- Function `possibly_exit_rudely`, lines 118-124. -/
def possibly_exit_rudely (st : Client) : Outcome Unit :=
  if st.websocket ≤ 0 then .exited "Aborting..." (free_all_mem st)
  else .ret () st

/-- Function `connect_websock` of `network.c`, lines 41-61: `exit(1)` when
`libwsclient_new` gives `NULL`, else the descriptor of the new client. -/
def connect_websock (nd : Node) (st : Client) : Outcome Int :=
  let st1 := { st with connects := st.connects + 1 }
  match nd.libwsclient_new st.connects with
  | none => .exited "Unable to initialize new WS client." st1
  | some fd => .ret fd st1

/-- Function `connect_websocket`, lines 99-116. -/
def connect_websocket (nd : Node) (st : Client) : Outcome Unit :=
  if nd.slice st.url 0 6 = "wss://" ∨ nd.slice st.url 0 5 = "ws://" then
    (connect_websock nd st).bind fun fd st1 =>
      possibly_exit_rudely { st1 with websocket := fd }
  else .ret () st

/-- Modelled from the spec: `append_rpc_message` (of `utility.h`) chains the
block `req` to the end of `Self.rpc_message_queue`, the append-on-arrival list
of the Pending-Response Registry.  The block is linked, not copied. -/
def append_rpc_message (req : Nat) (st : Client) : Client :=
  { st with rpc_message_queue := st.rpc_message_queue ++ [req] }

/-- The records the queue shows: the current content of each queued block. -/
def Client.queued (st : Client) : List (Option Req_queue) :=
  st.rpc_message_queue.map fun a => st.req_nodes.getD a none

/-- The value of an `int` expression whose mathematical value is `x`: reduced
modulo 2^32 into the range from `INT_MIN` to `INT_MAX`. -/
def wrap_int (x : Int) : Int :=
  (x + 2147483648) % 4294967296 - 2147483648

/-- The loop `while (!json_body)` of `rpc_request`, lines 196-244, followed by
`return json_body`; `req` is the block allocated on line 160.  One iteration
consumes one inbound message: a failing `websocket_recv` is only logged, and the
spin on `flag` is taken to end with a message in `buffer`.  Every iteration
parses into the same block `req` (line 206).  On an error record line 213 runs
`strlen(req->result)`: with a `NULL` result that dereferences `NULL`, otherwise
the `memset` blanks the text and the function returns `NULL`.  A record that is
not an error is appended (the same block again on a later iteration) before
`json_body` is tested, as in the source. -/
def await_response (nd : Node) (req : Nat) : Nat → Client → Outcome (Option String)
  | 0, st => .waiting st
  | fuel + 1, st =>
    let r := nd.parse_json_string st.recvd
    let st1 := { st with recvd := st.recvd + 1, req_nodes := st.req_nodes.set req (some r) }
    if r.err_flag then
      match r.result with
      | none => .crashed st1
      | some _ =>
        .ret none { st1 with req_nodes := st1.req_nodes.set req (some { r with result := some "" }) }
    else
      let st2 := append_rpc_message req st1
      match r.result with
      | some json_body => .ret (some json_body) st2
      | none => await_response nd req fuel st2

/-- Function `rpc_request`, lines 150-250.  The argument `result_handler` is not
read by the live code and is left out.  The block `req` is allocated first
(line 160), one per invocation.  `Self.request_id++` is an `int` increment.  The
value of the nested call on the reconnect path is dropped, as in the source
(line 188 is an expression statement), and the outer call goes on to its own
receive loop with its own block. -/
def rpc_request (nd : Node) (method : String) (params : List String) :
    Nat → Client → Outcome (Option String)
  | 0, st => .waiting st
  | fuel + 1, st =>
    let req := st.req_nodes.length
    let request_id := st.request_id
    let pl : Payload := { jsonrpc := "2.0", method := method, params := params, id := request_id }
    let st1 := { st with
      req_nodes := st.req_nodes ++ [none]
      request_id := wrap_int (st.request_id + 1)
      payloads := st.payloads ++ [pl] }
    if st1.websocket ≠ 0 then
      let rc := nd.websocket_send st1.sends
      let st2 := { st1 with sends := st1.sends + 1 }
      if rc = -1 then
        if st2.config.auto_reconnect = true ∧ st2.url.length > 0 then
          (connect_websocket nd st2).bind fun _ st3 =>
            (rpc_request nd method params fuel st3).bind fun _ st4 =>
              await_response nd req (fuel + 1) st4
        else .exited "Error: Could not reach server" st2
      else await_response nd req (fuel + 1) st2
    else .ret none st1

/-! Client bootstrap and accessors -/

/-- Function `init_client`, lines 20-93.  `Self` is the global before the call.  The
`void*` arguments (`type_registry`, `cache_region`, `runtime_config`) are only
stored and are left out; a `NULL` `type_registry_preset` makes the `strcpy` on
line 53 dereference `NULL`.  `garbage_hash` and `garbage_ws` are the
uninitialised contents of the blocks that `malloc` hands out for
`Self.block_hash` and `Self.ws_options`. -/
def init_client (nd : Node) (garbage_hash : String) (garbage_ws : Ws_option) (Self : Client)
    (url : String) (websocket : Int) (ss58_format : Int) (type_registry_preset : Option String)
    (use_remote_preset : Bool) (ws_options : Option Ws_option)
    (auto_discover : Bool) (auto_reconnect : Bool) : Outcome Unit :=
  if (url.length = 0 ∧ websocket = 0) ∨ (url.length > 0 ∧ websocket ≠ 0) then
    .exited "Either \x27url\x27 or \x27websocket\x27 must be provided" Self
  else
    let st1 := { Self with
      block_hash := garbage_hash
      ss58Format := if ss58_format ≠ 0 then ss58_format else 42 }
    match type_registry_preset with
    | none => .crashed st1
    | some preset =>
      let st2 := { st1 with type_registry_preset := preset, url := url, request_id := 1 }
      let st3 := match ws_options with
        | none => st2
        | some _ =>
          let opts : Ws_option :=
            { max_size := if garbage_ws.max_size = 0 then 2 ^ 32 else 0
              read_limit := if garbage_ws.read_limit = 0 then 2 ^ 32 else 0
              write_limit := if garbage_ws.write_limit = 0 then 2 ^ 32 else 0 }
          { st2 with ws_options := some opts }
      let connected : Outcome Unit :=
        if (nd.slice st3.url 0 6 = "wss://" ∧ nd.zero_buffer = true)
            ∨ nd.slice st3.url 0 5 = "ws://" then
          connect_websocket nd st3
        else if websocket ≠ 0 then .ret () { st3 with websocket := websocket }
        else .ret () st3
      connected.bind fun _ st4 =>
        .ret () { st4 with
          default_handlers := { content_type := "application/json", cache_control := "no-cache" }
          config :=
            { use_remote_preset := if use_remote_preset then use_remote_preset else true
              auto_discover := if auto_discover then auto_discover else true
              auto_reconnect := if auto_reconnect then auto_reconnect else true } }

/-- Function `sc_name`, lines 265-280. -/
def sc_name (nd : Node) (fuel : Nat) (st : Client) : Outcome (Option String) :=
  (possibly_exit_rudely st).bind fun _ st1 =>
    (rpc_request nd "system_name" [] fuel st1).bind fun buf st2 =>
      match buf with
      | some b =>
        if st2.name = none then .ret (some b) { st2 with name := some b }
        else .ret st2.name st2
      | none => .ret st2.name st2

/-- Function `sc_chain`, lines 298-313. -/
def sc_chain (nd : Node) (fuel : Nat) (st : Client) : Outcome (Option String) :=
  (possibly_exit_rudely st).bind fun _ st1 =>
    (rpc_request nd "system_chain" [] fuel st1).bind fun buf st2 =>
      match buf with
      | some b =>
        if st2.chain = none then .ret (some b) { st2 with chain := some b }
        else .ret st2.chain st2
      | none => .ret st2.chain st2

/-- Function `sc_version`, lines 315-330. -/
def sc_version (nd : Node) (fuel : Nat) (st : Client) : Outcome (Option String) :=
  (possibly_exit_rudely st).bind fun _ st1 =>
    (rpc_request nd "system_version" [] fuel st1).bind fun buf st2 =>
      match buf with
      | some b =>
        if st2.version = none then .ret (some b) { st2 with version := some b }
        else .ret st2.version st2
      | none => .ret st2.version st2

/-- Function `sc_get_chain_head`, lines 390-395. -/
def sc_get_chain_head (nd : Node) (fuel : Nat) (st : Client) : Outcome (Option String) :=
  (possibly_exit_rudely st).bind fun _ st1 =>
    rpc_request nd "chain_getHead" [] fuel st1

/-- Function `sc_get_block_hash`, lines 404-421 (the ten-byte copy of `block_id` is taken
to hold it). -/
def sc_get_block_hash (nd : Node) (fuel : Nat) (block_id : String) (st : Client) :
    Outcome (Option String) :=
  (possibly_exit_rudely st).bind fun _ st1 =>
    rpc_request nd "chain_getBlockHash" [block_id] fuel st1

/-! Runtime sequencer and metadata cache -/

/-- The libc `strstr(h, n) != NULL` on character lists. -/
def strstr : List Char → List Char → Bool
  | [], n => n.isEmpty
  | c :: h, n => n.isPrefixOf (c :: h) || strstr h n

/-- Function `is_error`, lines 450-459. -/
def is_error (buf : Option String) : Bool :=
  match buf with
  | none => true
  | some b =>
    b = "empty" || b = "null" || strstr b.data "Error".data || b = "(null)"

/-- Function `sc_get_metadata`, lines 488-508 (`chain_method` is a scratch global that
nothing modelled here reads). -/
def sc_get_metadata (nd : Node) (fuel : Nat) (block_hash : Option String) (st : Client) :
    Outcome (Option String) :=
  (possibly_exit_rudely st).bind fun _ st1 =>
    let param : List String := match block_hash with
      | some h => [h]
      | none => []
    rpc_request nd "state_getMetadata" param fuel st1

/-- Function `sc_get_block_runtime_version`, lines 520-533.  `runv` is the content of the
struct the first argument points to; the result is its content afterwards. -/
def sc_get_block_runtime_version (nd : Node) (fuel : Nat) (runv : Runtime_Version)
    (block_hash : String) (st : Client) : Outcome Runtime_Version :=
  (possibly_exit_rudely st).bind fun _ st1 =>
    (rpc_request nd "chain_getRuntimeVersion" [block_hash] fuel st1).bind fun buf st2 =>
      match buf with
      | none => .ret runv st2
      | some b =>
        if is_error (some b) then .ret runv st2
        else .ret (nd.decode_runtime_string runv b) st2

/-- Function `cache_metadata`, lines 615-634.  With an empty list only the local pointer
`end` is assigned (`end = new`), `Self.m_cache` stays `NULL` and the new node is
unreachable.  With a non-empty list the loop `while (end != NULL)` leaves
`end == NULL` and `end->next = new` dereferences it. -/
def cache_metadata (_buf : String) (st : Client) : Outcome Unit :=
  match st.m_cache with
  | [] => .ret () st
  | _ :: _ => .crashed st

/-- Function `metadata_is_cached`, lines 636-648. -/
def metadata_is_cached (st : Client) : Bool :=
  st.m_cache.any fun mc => mc.runtime_v = st.runtime_version

/-- The genesis sentinel compared with `parent_hash` on line 583. -/
def genesis_sentinel : String :=
  "0x0000000000000000000000000000000000000000000000000000000000000000"

/-- Lines 565-569 of `init_runtime`: the two conditional overwrites of the local
`block_hash`.  `block_hash` is the content of the local buffer on entry. -/
def resolve_block_hash (nd : Node) (fuel : Nat) (block_hash : String)
    (block_id : Option String) (st : Client) : Outcome String :=
  let first : Outcome String :=
    match block_id with
    | some id =>
      (sc_get_block_hash nd fuel id st).bind fun r st1 =>
        .ret (nd.clear_n_copy block_hash r) st1
    | none => .ret block_hash st
  first.bind fun block_hash1 st1 =>
    if block_hash1.length ≠ 0 then
      (sc_get_chain_head nd fuel st1).bind fun r st2 =>
        .ret (nd.clear_n_copy block_hash1 r) st2
    else .ret block_hash1 st1

/-- Lines 578-608 of `init_runtime`: what follows the header request.  `buf` is
the header response, `garbage_run_v` the content of the struct reached through
the uninitialised pointer `run_v`.  `strcpy(meta, NULL)` on line 602 is the
`crashed` outcome. -/
def init_runtime_after_header (nd : Node) (fuel : Nat) (garbage_run_v : Runtime_Version)
    (buf : Option String) (st : Client) : Outcome Unit :=
  let bl := nd.parse_and_cache_block buf "getHeader"
  let parent_hash := bl.parent_hash
  let runtime_block_hash :=
    if parent_hash = genesis_sentinel then st.block_hash else parent_hash
  (sc_get_block_runtime_version nd fuel garbage_run_v runtime_block_hash st).bind
    fun run_v st1 =>
      if st1.runtime_version = run_v.spec_version then .ret () st1
      else
        let st2 := { st1 with
          runtime_version := run_v.spec_version
          transaction_version := run_v.transaction_version }
        if metadata_is_cached st2 = false then .ret () st2
        else
          (sc_get_metadata nd fuel (some runtime_block_hash) st2).bind fun meta st3 =>
            match meta with
            | none => .crashed st3
            | some m => cache_metadata m st3

/-- Function `init_runtime`, lines 545-613.  `garbage_hash` is the uninitialised content
of the local `block_hash` buffer.  The argument `block_h` is never read by the
source.  The early returns skip the three `free` calls, which the embedding does
not track. -/
def init_runtime (nd : Node) (fuel : Nat) (garbage_hash : String)
    (garbage_run_v : Runtime_Version) (_block_h : Option String) (block_id : Option String)
    (st : Client) : Outcome Unit :=
  if block_id.isSome = true ∧ garbage_hash.length ≠ 0 then .ret () st
  else if (garbage_hash.length ≠ 0 ∧ st.block_hash = garbage_hash)
      ∨ (block_id.isSome = true ∧ st.block_id = nd.hex_to_int block_id) then .ret () st
  else
    (resolve_block_hash nd fuel garbage_hash block_id st).bind fun block_hash st1 =>
      let st2 := { st1 with
        block_hash := nd.clear_n_copy st1.block_hash (some block_hash)
        block_id := nd.hex_to_int block_id }
      (rpc_request nd "chain_getHeader" [st2.block_hash] fuel st2).bind fun buf st3 =>
        init_runtime_after_header nd fuel garbage_run_v buf st3

/-! Vocabulary of the statements -/

/-- The client with the fields owned by the dispatcher and the transport blanked:
what is left is everything `rpc_request` has no business writing. -/
def Client.rest (st : Client) : Client :=
  { st with
    websocket := 0, request_id := 0, rpc_message_queue := [], req_nodes := [], payloads := [],
    sends := 0, recvd := 0, connects := 0 }

/-- The envelopes of `k` consecutive invocations of `rpc_request` for one call,
the first of them reserving the id `first`, each next one the id the `int`
counter holds after one more increment. -/
def envelopes (method : String) (params : List String) : Int → Nat → List Payload
  | _, 0 => []
  | first, k + 1 =>
    { jsonrpc := "2.0", method := method, params := params, id := first }
      :: envelopes method params (wrap_int (first + 1)) k

/-- The `int` counter after `k` increments from `x`. -/
def counter_after : Int → Nat → Int
  | x, 0 => x
  | x, k + 1 => counter_after (wrap_int (x + 1)) k

/-- The envelopes with the ids `first, first + 1, ..., first + k - 1`. -/
def consecutive_envelopes (method : String) (params : List String) (first : Int) (k : Nat) :
    List Payload :=
  (List.range k).map fun (i : Nat) =>
    { jsonrpc := "2.0", method := method, params := params, id := first + Int.ofNat i }

/-- The state `s` is `st` after `k` invocations of `rpc_request` for the call
`method(params)`: `k` ids were reserved, `k` envelopes built, and nothing outside
the dispatcher fields was written. -/
def Client.after_calls (st : Client) (method : String) (params : List String) (k : Nat)
    (s : Client) : Prop :=
  s.rest = st.rest ∧ s.request_id = counter_after st.request_id k
    ∧ s.payloads = st.payloads ++ envelopes method params st.request_id k

/-- The ids on the envelopes built so far are strictly increasing in the order
they were built, and all lie below the counter. -/
def ids_fresh (st : Client) : Prop :=
  (st.payloads.map Payload.id).Pairwise (fun a b => a < b)
    ∧ ∀ pl ∈ st.payloads, pl.id < st.request_id

/-- Between `st` and `s` the cache was not written and no envelope for
`state_getMetadata` was built. -/
def no_metadata_fetch (st s : Client) : Prop :=
  s.m_cache = st.m_cache
    ∧ ∃ l, s.payloads = st.payloads ++ l ∧ ∀ pl ∈ l, pl.method ≠ "state_getMetadata"

/-- The record with its id blanked. -/
def Req_queue.untag (r : Req_queue) : Req_queue :=
  { r with id := 0 }

/-- The client with the ids of the parsed records blanked. -/
def Client.untagged (st : Client) : Client :=
  { st with req_nodes := st.req_nodes.map (Option.map Req_queue.untag) }

/-- The outcome with the ids of the queued records blanked. -/
def Outcome.untagged {α : Type} : Outcome α → Outcome α
  | .ret v st => .ret v st.untagged
  | .exited msg st => .exited msg st.untagged
  | .crashed st => .crashed st.untagged
  | .waiting st => .waiting st.untagged

/-- The node whose k-th inbound record carries the id `g k` instead of its own. -/
def Node.retag (nd : Node) (g : Nat → Int) : Node :=
  { nd with parse_json_string := fun k => { nd.parse_json_string k with id := g k } }

/-! Example nodes and clients -/

/-- The characters of a string between two offsets, the usual reading of `slice`. -/
def demo_slice (s : String) (a b : Nat) : String :=
  String.mk ((s.data.drop a).take (b - a))

/-- Value of one hexadecimal digit (lower case), `0` for anything else. -/
def demo_hex_digit (c : Char) : Int :=
  if 48 ≤ c.toNat ∧ c.toNat ≤ 57 then Int.ofNat (c.toNat - 48)
  else if 97 ≤ c.toNat ∧ c.toNat ≤ 102 then Int.ofNat (c.toNat - 87)
  else 0

/-- Reads `0x`-prefixed hexadecimal; `NULL` reads as `0`. -/
def demo_hex_to_int : Option String → Int
  | none => 0
  | some s => (s.data.drop 2).foldl (fun acc c => acc * 16 + demo_hex_digit c) 0

/-- The global `Self` of a fresh process: C zero-initialises it. -/
def Self0 : Client :=
  { url := "", websocket := 0, request_id := 0,
    config := { use_remote_preset := false, auto_discover := false, auto_reconnect := false },
    ss58Format := 0, type_registry_preset := "", ws_options := none,
    default_handlers := { content_type := "", cache_control := "" },
    name := none, chain := none, version := none, block_hash := "", block_id := 0,
    runtime_version := 0, transaction_version := 0, m_cache := [], rpc_message_queue := [],
    req_nodes := [], payloads := [], sends := 0, recvd := 0, connects := 0 }

/-- An example node: every send succeeds, every connect yields descriptor 5, and
every inbound message is the response `"Polkadot"` tagged with id 1.  Its
helpers are the plain readings of their names; a header response stands for the
parent hash it carries. -/
def demo_node : Node :=
  { websocket_send := fun _ => 0
    parse_json_string := fun _ => { id := 1, result := some "Polkadot", err_flag := false }
    libwsclient_new := fun _ => some 5
    slice := demo_slice
    zero_buffer := true
    hex_to_int := demo_hex_to_int
    clear_n_copy := fun _ src => src.getD ""
    parse_and_cache_block := fun buf _ => { parent_hash := buf.getD "", block_number := 1 }
    decode_runtime_string := fun _ _ => { spec_version := 100, transaction_version := 1 } }

/-- The client right after `init_client("ws://node", 0, 0, ..., "default", ..., false, NULL, false, false)`
against `demo_node`. -/
def demo_client : Client :=
  (init_client demo_node "" ⟨0, 0, 0⟩ Self0 "ws://node" 0 0 (some "default")
    false none false false).state

/-- The client right after `init_client("", 3, ...)`: an open descriptor was
handed in and no url is configured. -/
def demo_client_fd : Client :=
  (init_client demo_node "" ⟨0, 0, 0⟩ Self0 "" 3 0 (some "default")
    false none false false).state

/-- A connected client whose active block is block 5 with hash `0x01d`. -/
def demo_client_at_block : Client :=
  { demo_client with block_hash := "0x01d", block_id := 5 }

/-- As `demo_node`, but every inbound message carries the id 7. -/
def node_foreign_id : Node :=
  { demo_node with
    parse_json_string := fun _ => { id := 7, result := some "foreign", err_flag := false } }

/-- As `demo_node`, but the first two sends fail, and the k-th inbound message is
tagged `k + 1` and carries "first", "second", "third", ... in turn. -/
def node_two_drops : Node :=
  { demo_node with
    websocket_send := fun k => if k < 2 then -1 else 0
    parse_json_string := fun k =>
      { id := Int.ofNat k + 1
        result := some (if k = 0 then "first" else if k = 1 then "second" else "third")
        err_flag := false } }

/-- As `demo_node`, but every send fails. -/
def node_down : Node :=
  { demo_node with websocket_send := fun _ => -1 }

/-- As `demo_node`, but the node answers "Polkadot" once and "Kusama" from then on. -/
def node_renamed : Node :=
  { demo_node with
    parse_json_string := fun k =>
      { id := Int.ofNat k + 1
        result := some (if k = 0 then "Polkadot" else "Kusama")
        err_flag := false } }

/-- An example node for `init_runtime`: the inbound messages are, in order, a
block hash, the chain head, a header (its parent hash), a runtime version
descriptor, and metadata; every descriptor decodes to spec version 100 and
transaction version 7. -/
def node_runtime : Node :=
  { demo_node with
    parse_json_string := fun k =>
      { id := Int.ofNat k + 1
        result := some (if k = 0 then "0xb10c" else if k = 1 then "0xhead"
          else if k = 2 then "0xpa7e" else if k = 3 then "specVersion 100" else "0xmeta")
        err_flag := false }
    decode_runtime_string := fun _ _ => { spec_version := 100, transaction_version := 7 } }

/-- As `node_runtime`, but the node answers the runtime version request (the
fourth inbound message) with an error. -/
def node_runtime_fails : Node :=
  { node_runtime with
    parse_json_string := fun k =>
      if k = 3 then { id := 4, result := some "Error: unknown block", err_flag := true }
      else node_runtime.parse_json_string k }

/-- As `node_runtime`, but the header (third inbound message) is that of the
genesis block: its parent hash is the sentinel. -/
def node_genesis : Node :=
  { node_runtime with
    parse_json_string := fun k =>
      if k = 2 then { id := 3, result := some genesis_sentinel, err_flag := false }
      else node_runtime.parse_json_string k }

/-- The connected client after 2147483646 requests: the counter holds `INT_MAX`. -/
def demo_client_at_int_max : Client :=
  { demo_client with request_id := 2147483647 }

/-- As `node_runtime`, but the node reports the all-zero hash both as the chain
head (second inbound message) and as the parent hash of its header (third). -/
def node_sentinel_head : Node :=
  { node_runtime with
    parse_json_string := fun k =>
      if k = 1 then { id := 2, result := some genesis_sentinel, err_flag := false }
      else if k = 2 then { id := 3, result := some genesis_sentinel, err_flag := false }
      else node_runtime.parse_json_string k }

/-! Sequencing lemmas -/

theorem Client.rest_fields (a b : Client) (h : a.rest = b.rest) :
    a.url = b.url ∧ a.config = b.config ∧ a.block_hash = b.block_hash ∧ a.block_id = b.block_id
      ∧ a.runtime_version = b.runtime_version
      ∧ a.transaction_version = b.transaction_version
      ∧ a.m_cache = b.m_cache ∧ a.chain = b.chain := by
  have h1 : a.rest.url = b.rest.url := by rw [h]
  have h2 : a.rest.config = b.rest.config := by rw [h]
  have h3 : a.rest.block_hash = b.rest.block_hash := by rw [h]
  have h4 : a.rest.block_id = b.rest.block_id := by rw [h]
  have h5 : a.rest.runtime_version = b.rest.runtime_version := by rw [h]
  have h6 : a.rest.transaction_version = b.rest.transaction_version := by rw [h]
  have h7 : a.rest.m_cache = b.rest.m_cache := by rw [h]
  have h8 : a.rest.chain = b.rest.chain := by rw [h]
  exact ⟨h1, h2, h3, h4, h5, h6, h7, h8⟩

theorem Outcome.bind_state {α β : Type} (o : Outcome α) (k : α → Client → Outcome β)
    (P : Client → Prop) (ho : P o.state) (hk : ∀ v s, o = .ret v s → P (k v s).state) :
    P (o.bind k).state := by
  cases o with
  | ret v s => exact hk v s rfl
  | exited msg s => exact ho
  | crashed s => exact ho
  | waiting s => exact ho

theorem Outcome.bind_eq_ret {α β : Type} (o : Outcome α) (k : α → Client → Outcome β)
    (v : β) (s : Client) (h : o.bind k = .ret v s) :
    ∃ v1 s1, o = .ret v1 s1 ∧ k v1 s1 = .ret v s := by
  cases o with
  | ret v1 s1 => exact ⟨v1, s1, rfl, h⟩
  | exited msg s1 => simp [Outcome.bind] at h
  | crashed s1 => simp [Outcome.bind] at h
  | waiting s1 => simp [Outcome.bind] at h

theorem Outcome.bind_eq_exited {α β : Type} (o : Outcome α) (k : α → Client → Outcome β)
    (msg : String) (s : Client) (h : o.bind k = .exited msg s) :
    o = .exited msg s ∨ ∃ v1 s1, o = .ret v1 s1 ∧ k v1 s1 = .exited msg s := by
  cases o with
  | ret v1 s1 => exact Or.inr ⟨v1, s1, rfl, h⟩
  | exited msg1 s1 =>
    simp only [Outcome.bind, Outcome.exited.injEq] at h
    exact Or.inl (by rw [h.1, h.2])
  | crashed s1 => simp [Outcome.bind] at h
  | waiting s1 => simp [Outcome.bind] at h

/-! What the dispatcher touches, and the envelopes it builds -/

theorem await_response_frame (nd : Node) (req : Nat) (fuel : Nat) (st : Client) :
    (await_response nd req fuel st).state.rest = st.rest
      ∧ (await_response nd req fuel st).state.request_id = st.request_id
      ∧ (await_response nd req fuel st).state.payloads = st.payloads
      ∧ (await_response nd req fuel st).state.sends = st.sends
      ∧ (await_response nd req fuel st).state.connects = st.connects
      ∧ (await_response nd req fuel st).state.websocket = st.websocket := by
  induction fuel generalizing st with
  | zero => simp [await_response, Outcome.state]
  | succ n ih =>
    unfold await_response
    by_cases he : (nd.parse_json_string st.recvd).err_flag = true
    · cases hr : (nd.parse_json_string st.recvd).result with
      | some s => simp [he, hr, Outcome.state, Client.rest]
      | none => simp [he, hr, Outcome.state, Client.rest]
    · cases hr : (nd.parse_json_string st.recvd).result with
      | some s => simp [he, hr, Outcome.state, Client.rest, append_rpc_message]
      | none =>
        simp only [he, hr]
        have := ih (append_rpc_message req
          { st with recvd := st.recvd + 1,
                    req_nodes := st.req_nodes.set req (some (nd.parse_json_string st.recvd)) })
        simpa [append_rpc_message, Client.rest] using this

theorem await_response_not_exited (nd : Node) (req : Nat) (fuel : Nat) (st : Client)
    (msg : String) (s : Client) : await_response nd req fuel st ≠ .exited msg s := by
  induction fuel generalizing st with
  | zero => simp [await_response]
  | succ n ih =>
    unfold await_response
    by_cases he : (nd.parse_json_string st.recvd).err_flag = true
    · cases hr : (nd.parse_json_string st.recvd).result with
      | some r => simp [he, hr]
      | none => simp [he, hr]
    · cases hr : (nd.parse_json_string st.recvd).result with
      | some r => simp [he, hr]
      | none =>
        simp only [he, hr]
        exact ih _

theorem connect_websocket_frame (nd : Node) (st : Client) :
    (connect_websocket nd st).state.rest = st.rest
      ∧ (connect_websocket nd st).state.request_id = st.request_id
      ∧ (connect_websocket nd st).state.payloads = st.payloads
      ∧ (connect_websocket nd st).state.sends = st.sends
      ∧ (connect_websocket nd st).state.recvd = st.recvd := by
  unfold connect_websocket connect_websock
  split
  · cases nd.libwsclient_new st.connects with
    | none => simp [Outcome.bind, Outcome.state, Client.rest]
    | some fd =>
      simp only [Outcome.bind]
      unfold possibly_exit_rudely
      split <;> simp [Outcome.state, free_all_mem, Client.rest]
  · simp [Outcome.state]

theorem connect_websocket_exit_msg (nd : Node) (st s : Client) (msg : String)
    (h : connect_websocket nd st = .exited msg s) :
    msg = "Aborting..." ∨ msg = "Unable to initialize new WS client." := by
  unfold connect_websocket connect_websock at h
  by_cases hc : nd.slice st.url 0 6 = "wss://" ∨ nd.slice st.url 0 5 = "ws://"
  · rw [if_pos hc] at h
    cases hn : nd.libwsclient_new st.connects with
    | none =>
      simp only [hn, Outcome.bind, Outcome.exited.injEq] at h
      exact Or.inr h.1.symm
    | some fd =>
      simp only [hn, Outcome.bind, possibly_exit_rudely] at h
      split at h
      · simp only [Outcome.exited.injEq] at h
        exact Or.inl h.1.symm
      · cases h
  · rw [if_neg hc] at h
    cases h

theorem wrap_int_of_range (x : Int) (h1 : -2147483648 ≤ x) (h2 : x ≤ 2147483647) :
    wrap_int x = x := by
  unfold wrap_int
  omega

theorem envelopes_zero (m : String) (ps : List String) (a : Int) : envelopes m ps a 0 = [] :=
  rfl

theorem envelopes_succ (m : String) (ps : List String) (a : Int) (k : Nat) :
    envelopes m ps a (k + 1)
      = { jsonrpc := "2.0", method := m, params := ps, id := a }
          :: envelopes m ps (wrap_int (a + 1)) k :=
  rfl

theorem envelopes_mem (m : String) (ps : List String) (a : Int) (k : Nat) (pl : Payload)
    (h : pl ∈ envelopes m ps a k) : pl.method = m ∧ pl.params = ps := by
  induction k generalizing a with
  | zero => simp [envelopes_zero] at h
  | succ n ih =>
    rw [envelopes_succ, List.mem_cons] at h
    rcases h with h | h
    · subst h
      exact ⟨rfl, rfl⟩
    · exact ih _ h

theorem consecutive_envelopes_succ (m : String) (ps : List String) (a : Int) (k : Nat) :
    consecutive_envelopes m ps a (k + 1)
      = { jsonrpc := "2.0", method := m, params := ps, id := a }
          :: consecutive_envelopes m ps (a + 1) k := by
  simp only [consecutive_envelopes, List.range_succ_eq_map, List.map_cons, List.map_map]
  congr 1
  · simp
  · apply List.map_congr_left
    intro i _
    simp only [Function.comp, Nat.succ_eq_add_one, Int.ofNat_eq_coe]
    congr 1
    push_cast
    ring

/-- While the ids of the next `k` envelopes all fit below `INT_MAX`, they are
consecutive. -/
theorem envelopes_consecutive_of_room (m : String) (ps : List String) (a : Int) (k : Nat)
    (h1 : -2147483648 ≤ a) (h2 : a + (k : Int) ≤ 2147483648) :
    envelopes m ps a k = consecutive_envelopes m ps a k := by
  induction k generalizing a with
  | zero => simp [envelopes, consecutive_envelopes]
  | succ n ih =>
    rw [envelopes_succ, consecutive_envelopes_succ]
    cases n with
    | zero => simp [envelopes, consecutive_envelopes]
    | succ j =>
      have hw : wrap_int (a + 1) = a + 1 :=
        wrap_int_of_range _ (by omega) (by push_cast at h2; omega)
      rw [hw, ih (a + 1) (by omega) (by push_cast at h2 ⊢; omega)]

/-- While the counter has room for `k` more increments below `INT_MAX`, the ids
of the next `k` envelopes are consecutive and the counter ends `k` higher. -/
theorem envelopes_of_room (m : String) (ps : List String) (a : Int) (k : Nat)
    (h1 : -2147483648 ≤ a) (h2 : a + (k : Int) ≤ 2147483647) :
    envelopes m ps a k = consecutive_envelopes m ps a k
      ∧ counter_after a k = a + (k : Int) := by
  induction k generalizing a with
  | zero => simp [envelopes, consecutive_envelopes, counter_after]
  | succ n ih =>
    have hw : wrap_int (a + 1) = a + 1 := wrap_int_of_range _ (by omega) (by push_cast at h2; omega)
    obtain ⟨e1, e2⟩ := ih (a + 1) (by omega) (by push_cast at h2 ⊢; omega)
    rw [envelopes_succ, consecutive_envelopes_succ, hw, e1]
    refine ⟨rfl, ?_⟩
    show counter_after (wrap_int (a + 1)) n = a + ((n + 1 : Nat) : Int)
    rw [hw, e2]
    push_cast
    ring

theorem consecutive_envelopes_id_bounds (m : String) (ps : List String) (a : Int) (k : Nat)
    (pl : Payload) (h : pl ∈ consecutive_envelopes m ps a k) :
    a ≤ pl.id ∧ pl.id < a + (k : Int) := by
  simp only [consecutive_envelopes, List.mem_map, List.mem_range] at h
  obtain ⟨i, hi, rfl⟩ := h
  simp only [Int.ofNat_eq_coe]
  omega

theorem consecutive_envelopes_ids_increasing (m : String) (ps : List String) (a : Int)
    (k : Nat) :
    ((consecutive_envelopes m ps a k).map Payload.id).Pairwise (fun x y => x < y) := by
  induction k generalizing a with
  | zero => simp [consecutive_envelopes]
  | succ n ih =>
    rw [consecutive_envelopes_succ, List.map_cons, List.pairwise_cons]
    refine ⟨?_, ih (a + 1)⟩
    intro y hy
    simp only [List.mem_map] at hy
    obtain ⟨pl, hpl, rfl⟩ := hy
    have := (consecutive_envelopes_id_bounds m ps (a + 1) n pl hpl).1
    show a < pl.id
    omega

theorem after_calls_step (st s1 s2 : Client) (m : String) (ps : List String) (k : Nat)
    (h1 : s1.rest = st.rest) (h2 : s1.request_id = wrap_int (st.request_id + 1))
    (h3 : s1.payloads = st.payloads
      ++ [{ jsonrpc := "2.0", method := m, params := ps, id := st.request_id }])
    (h : s1.after_calls m ps k s2) : st.after_calls m ps (k + 1) s2 := by
  obtain ⟨a, b, c⟩ := h
  refine ⟨a.trans h1, ?_, ?_⟩
  · rw [b, h2]; rfl
  · rw [c, h3, h2, envelopes_succ]; simp

theorem after_calls_frame (st s s2 : Client) (m : String) (ps : List String) (k : Nat)
    (h : st.after_calls m ps k s) (h1 : s2.rest = s.rest) (h2 : s2.request_id = s.request_id)
    (h3 : s2.payloads = s.payloads) : st.after_calls m ps k s2 := by
  obtain ⟨a, b, c⟩ := h
  exact ⟨h1.trans a, h2.trans b, h3.trans c⟩

theorem after_calls_one (st s1 : Client) (m : String) (ps : List String)
    (h1 : s1.rest = st.rest) (h2 : s1.request_id = wrap_int (st.request_id + 1))
    (h3 : s1.payloads = st.payloads
      ++ [{ jsonrpc := "2.0", method := m, params := ps, id := st.request_id }]) :
    st.after_calls m ps 1 s1 :=
  after_calls_step st s1 s1 m ps 0 h1 h2 h3
    ⟨rfl, rfl, by simp [envelopes_zero]⟩

theorem rpc_request_trace (nd : Node) (m : String) (ps : List String) (fuel : Nat) (st : Client) :
    ∃ k, k ≤ fuel ∧ (0 < fuel → 0 < k)
      ∧ st.after_calls m ps k (rpc_request nd m ps fuel st).state := by
  induction fuel generalizing st with
  | zero =>
    exact ⟨0, le_refl _, fun h => h,
      by simp [rpc_request, Outcome.state, Client.after_calls, envelopes_zero, counter_after]⟩
  | succ n ih =>
    suffices h : ∃ k, k ≤ n + 1 ∧ 0 < k
        ∧ st.after_calls m ps k (rpc_request nd m ps (n + 1) st).state by
      obtain ⟨k, h1, h2, h3⟩ := h
      exact ⟨k, h1, fun _ => h2, h3⟩
    unfold rpc_request
    simp only []
    by_cases hws : st.websocket = 0
    · refine ⟨1, by omega, by omega, ?_⟩
      simp only [hws, ne_eq, not_true_eq_false, if_false, Outcome.state]
      exact after_calls_one _ _ _ _ rfl rfl rfl
    · simp only [ne_eq, hws, not_false_eq_true, if_true]
      by_cases hrc : nd.websocket_send st.sends = -1
      · simp only [hrc, if_true]
        by_cases hre : st.config.auto_reconnect = true ∧ st.url.length > 0
        · simp only [hre, and_self, if_true]
          refine Outcome.bind_state _ _
            (fun s => ∃ k, k ≤ n + 1 ∧ 0 < k ∧ st.after_calls m ps k s) ?_ ?_
          · refine ⟨1, by omega, by omega, ?_⟩
            obtain ⟨c1, c2, c3, _, _⟩ := connect_websocket_frame nd
              { st with req_nodes := st.req_nodes ++ [none],
                        request_id := wrap_int (st.request_id + 1),
                        payloads := st.payloads ++ [⟨"2.0", m, ps, st.request_id⟩],
                        sends := st.sends + 1 }
            exact after_calls_one _ _ _ _ c1 c2 c3
          · intro _ st3 hc
            have hf := connect_websocket_frame nd
              { st with req_nodes := st.req_nodes ++ [none],
                        request_id := wrap_int (st.request_id + 1),
                        payloads := st.payloads ++ [⟨"2.0", m, ps, st.request_id⟩],
                        sends := st.sends + 1 }
            rw [hc] at hf
            obtain ⟨c1, c2, c3, _, _⟩ := hf
            obtain ⟨k, hk1, _, hk3⟩ := ih st3
            have hstep : st.after_calls m ps (k + 1) (rpc_request nd m ps n st3).state :=
              after_calls_step st st3 _ m ps k c1 c2 c3 hk3
            refine Outcome.bind_state _ _
              (fun s => ∃ k, k ≤ n + 1 ∧ 0 < k ∧ st.after_calls m ps k s) ?_ ?_
            · exact ⟨k + 1, by omega, by omega, hstep⟩
            · intro _ st4 hn
              rw [hn] at hstep
              obtain ⟨a1, a2, a3, _, _, _⟩ := await_response_frame nd st.req_nodes.length
                (n + 1) st4
              exact ⟨k + 1, by omega, by omega, after_calls_frame _ _ _ _ _ _ hstep a1 a2 a3⟩
        · refine ⟨1, by omega, by omega, ?_⟩
          simp only [hre, if_false, Outcome.state]
          exact after_calls_one _ _ _ _ rfl rfl rfl
      · refine ⟨1, by omega, by omega, ?_⟩
        simp only [hrc, if_false]
        obtain ⟨a1, a2, a3, _, _, _⟩ := await_response_frame nd st.req_nodes.length (n + 1)
          { st with req_nodes := st.req_nodes ++ [none],
                    request_id := wrap_int (st.request_id + 1),
                    payloads := st.payloads ++ [⟨"2.0", m, ps, st.request_id⟩],
                    sends := st.sends + 1 }
        exact after_calls_one _ _ _ _ a1 a2 a3

theorem connect_websocket_ret_frame (nd : Node) (st s : Client) (u : Unit)
    (h : connect_websocket nd st = .ret u s) :
    s.rest = st.rest ∧ s.request_id = st.request_id ∧ s.payloads = st.payloads
      ∧ s.sends = st.sends ∧ s.recvd = st.recvd := by
  have hf := connect_websocket_frame nd st
  rw [h] at hf
  exact hf

theorem rpc_request_fatal_branch (nd : Node) (m : String) (ps : List String) (fuel : Nat)
    (st s : Client) (hcfg : st.config.auto_reconnect = true)
    (h : rpc_request nd m ps fuel st = .exited "Error: Could not reach server" s) :
    st.url.length = 0 := by
  induction fuel generalizing st s with
  | zero => simp [rpc_request] at h
  | succ n ih =>
    unfold rpc_request at h
    simp only [] at h
    by_cases hws : st.websocket = 0
    · simp [hws] at h
    · simp only [ne_eq, hws, not_false_eq_true, if_true] at h
      by_cases hrc : nd.websocket_send st.sends = -1
      · simp only [hrc, if_true] at h
        by_cases hre : st.config.auto_reconnect = true ∧ st.url.length > 0
        · simp only [hre, and_self, if_true] at h
          rcases Outcome.bind_eq_exited _ _ _ _ h with hc | ⟨_, st3, hc, h2⟩
          · rcases connect_websocket_exit_msg nd _ _ _ hc with e | e <;> simp at e
          · have hf := connect_websocket_ret_frame nd _ _ _ hc
            have hrest := hf.1
            rcases Outcome.bind_eq_exited _ _ _ _ h2 with hn | ⟨_, st4, _, h3⟩
            · obtain ⟨hu, hg, _⟩ := Client.rest_fields _ _ hrest
              simp only [Outcome.state] at hu hg
              have := ih st3 s (by rw [hg]; exact hcfg) hn
              rw [hu] at this
              exact this
            · exact absurd h3 (await_response_not_exited nd _ _ _ _ _)
        · have : ¬ st.url.length > 0 := fun hl => hre ⟨hcfg, hl⟩
          omega
      · simp only [hrc, if_false] at h
        exact absurd h (await_response_not_exited nd _ _ _ _ _)

theorem guarded_rpc_trace (nd : Node) (m : String) (ps : List String) (fuel : Nat) (st : Client) :
    ∃ k, (0 < fuel → 0 < st.websocket → 0 < k)
      ∧ st.after_calls m ps k
          ((possibly_exit_rudely st).bind fun _ s => rpc_request nd m ps fuel s).state := by
  unfold possibly_exit_rudely
  by_cases hw : st.websocket ≤ 0
  · rw [if_pos hw]
    refine ⟨0, fun _ h => absurd h (by omega), ?_⟩
    simp [Outcome.bind, Outcome.state, free_all_mem, Client.after_calls, Client.rest,
      envelopes_zero, counter_after]
  · rw [if_neg hw]
    obtain ⟨k, _, h2, h3⟩ := rpc_request_trace nd m ps fuel st
    exact ⟨k, fun hf _ => h2 hf, h3⟩

/-! The dispatcher never reads a record id -/

theorem untagged_eq (s t : Client) (h : s.untagged = t.untagged) :
    ∃ q, s = { t with req_nodes := q }
      ∧ q.map (Option.map Req_queue.untag) = t.req_nodes.map (Option.map Req_queue.untag) := by
  cases s
  cases t
  simp only [Client.untagged, Client.mk.injEq] at h
  obtain ⟨h1, h2, h3, h4, h5, h6, h7, h8, h9, h10, h11, h12, h13, h14, h15, h16, h17, h18, h19,
    h20, h21, h22⟩ := h
  subst h1 h2 h3 h4 h5 h6 h7 h8 h9 h10 h11 h12 h13 h14 h15 h16 h17 h19 h20 h21 h22
  exact ⟨_, rfl, h18⟩

theorem Outcome.bind_untagged {α β : Type} (o o2 : Outcome α) (k k2 : α → Client → Outcome β)
    (ho : o.untagged = o2.untagged)
    (hk : ∀ v s t, s.untagged = t.untagged → (k v s).untagged = (k2 v t).untagged) :
    (o.bind k).untagged = (o2.bind k2).untagged := by
  cases o with
  | ret v s =>
    cases o2 with
    | ret v2 s2 =>
      simp only [Outcome.untagged, Outcome.ret.injEq] at ho
      obtain ⟨rfl, hs⟩ := ho
      exact hk _ _ _ hs
    | exited m2 s2 => simp [Outcome.untagged] at ho
    | crashed s2 => simp [Outcome.untagged] at ho
    | waiting s2 => simp [Outcome.untagged] at ho
  | exited m s =>
    cases o2 with
    | ret v2 s2 => simp [Outcome.untagged] at ho
    | exited m2 s2 =>
      simp only [Outcome.untagged, Outcome.exited.injEq] at ho
      simp only [Outcome.bind, Outcome.untagged, Outcome.exited.injEq]
      exact ho
    | crashed s2 => simp [Outcome.untagged] at ho
    | waiting s2 => simp [Outcome.untagged] at ho
  | crashed s =>
    cases o2 with
    | ret v2 s2 => simp [Outcome.untagged] at ho
    | exited m2 s2 => simp [Outcome.untagged] at ho
    | crashed s2 =>
      simp only [Outcome.untagged, Outcome.crashed.injEq] at ho
      simp only [Outcome.bind, Outcome.untagged, Outcome.crashed.injEq]
      exact ho
    | waiting s2 => simp [Outcome.untagged] at ho
  | waiting s =>
    cases o2 with
    | ret v2 s2 => simp [Outcome.untagged] at ho
    | exited m2 s2 => simp [Outcome.untagged] at ho
    | crashed s2 => simp [Outcome.untagged] at ho
    | waiting s2 =>
      simp only [Outcome.untagged, Outcome.waiting.injEq] at ho
      simp only [Outcome.bind, Outcome.untagged, Outcome.waiting.injEq]
      exact ho

theorem Outcome.untagged_value {α : Type} (o : Outcome α) : o.untagged.value = o.value := by
  cases o <;> rfl


theorem await_response_untagged (nd : Node) (g : Nat → Int) (req : Nat) (fuel : Nat)
    (s t : Client) (h : s.untagged = t.untagged) :
    (await_response (nd.retag g) req fuel s).untagged
      = (await_response nd req fuel t).untagged := by
  induction fuel generalizing s t with
  | zero => simp [await_response, Outcome.untagged, h]
  | succ n ih =>
    obtain ⟨q, rfl, hq⟩ := untagged_eq s t h
    unfold await_response
    simp only [Node.retag]
    by_cases he : (nd.parse_json_string t.recvd).err_flag = true
    · cases hres : (nd.parse_json_string t.recvd).result with
      | some r =>
        simp [he, hres, Outcome.untagged, Client.untagged, hq, Req_queue.untag]
      | none =>
        simp [he, hres, Outcome.untagged, Client.untagged, hq, Req_queue.untag]
    · cases hres : (nd.parse_json_string t.recvd).result with
      | some r =>
        simp [he, hres, Outcome.untagged, Client.untagged, append_rpc_message, hq,
          Req_queue.untag]
      | none =>
        simp only [he, hres]
        apply ih
        have he2 : (nd.parse_json_string t.recvd).err_flag = false := by simpa using he
        simp [Client.untagged, append_rpc_message, hq, Req_queue.untag, hres, he2]

theorem connect_websocket_untagged (nd : Node) (g : Nat → Int) (s t : Client)
    (h : s.untagged = t.untagged) :
    (connect_websocket (nd.retag g) s).untagged = (connect_websocket nd t).untagged := by
  obtain ⟨q, rfl, hq⟩ := untagged_eq s t h
  unfold connect_websocket connect_websock possibly_exit_rudely
  simp only [Node.retag]
  split
  · cases nd.libwsclient_new t.connects with
    | none => simp [Outcome.bind, Outcome.untagged, Client.untagged, hq]
    | some fd =>
      simp only [Outcome.bind]
      split <;> simp [Outcome.untagged, Client.untagged, free_all_mem, hq]
  · simp [Outcome.untagged, Client.untagged, hq]

theorem rpc_request_untagged (nd : Node) (g : Nat → Int) (m : String) (ps : List String)
    (fuel : Nat) (s t : Client) (h : s.untagged = t.untagged) :
    (rpc_request (nd.retag g) m ps fuel s).untagged = (rpc_request nd m ps fuel t).untagged := by
  induction fuel generalizing s t with
  | zero => simp [rpc_request, Outcome.untagged, h]
  | succ n ih =>
    obtain ⟨q, rfl, hq⟩ := untagged_eq s t h
    have hlen : q.length = t.req_nodes.length := by
      have := congrArg List.length hq
      simpa using this
    unfold rpc_request
    simp only [hlen]
    by_cases hws : t.websocket = 0
    · simp [hws, Outcome.untagged, Client.untagged, hq]
    · simp only [ne_eq, hws, not_false_eq_true, if_true]
      have hsend : (nd.retag g).websocket_send t.sends = nd.websocket_send t.sends := rfl
      rw [hsend]
      by_cases hrc : nd.websocket_send t.sends = -1
      · simp only [hrc, if_true]
        by_cases hre : t.config.auto_reconnect = true ∧ t.url.length > 0
        · simp only [hre, and_self, if_true]
          apply Outcome.bind_untagged
          · apply connect_websocket_untagged
            simp [Client.untagged, hq]
          · intro _ s3 t3 h3
            apply Outcome.bind_untagged
            · exact ih s3 t3 h3
            · intro _ s4 t4 h4
              exact await_response_untagged nd g _ (n + 1) s4 t4 h4
        · simp [hre, Outcome.untagged, Client.untagged, hq]
      · simp only [hrc, if_false]
        apply await_response_untagged
        simp [Client.untagged, hq]

/-- The value `rpc_request` returns does not depend on the ids of the inbound
records, on any path and with any fuel. -/
theorem rpc_request_ignores_ids (nd : Node) (g : Nat → Int) (m : String) (ps : List String)
    (fuel : Nat) (st : Client) :
    (rpc_request (nd.retag g) m ps fuel st).value = (rpc_request nd m ps fuel st).value := by
  rw [← Outcome.untagged_value, rpc_request_untagged nd g m ps fuel st st rfl,
    Outcome.untagged_value]

/-! Facts about `init_client` -/

theorem init_client_connect_frame (nd : Node) (c : Prop) [Decidable c] (websocket : Int)
    (st3 st4 : Client)
    (h : (if c then connect_websocket nd st3
          else if websocket ≠ 0 then .ret () { st3 with websocket := websocket }
          else .ret () st3) = Outcome.ret () st4) :
    st4.request_id = st3.request_id ∧ st4.payloads = st3.payloads ∧ st4.url = st3.url := by
  by_cases hc : c
  · rw [if_pos hc] at h
    have hf := connect_websocket_frame nd st3
    rw [h] at hf
    exact ⟨hf.2.1, hf.2.2.1, (Client.rest_fields _ _ hf.1).1⟩
  · rw [if_neg hc] at h
    by_cases hw : websocket ≠ 0
    · rw [if_pos hw] at h
      cases h
      exact ⟨rfl, rfl, rfl⟩
    · rw [if_neg hw] at h
      cases h
      exact ⟨rfl, rfl, rfl⟩

theorem init_client_ret (nd : Node) (gh : String) (gw : Ws_option) (Self : Client)
    (url : String) (websocket ss58 : Int) (preset : Option String) (urp : Bool)
    (wo : Option Ws_option) (ad ar : Bool) (st : Client)
    (h : init_client nd gh gw Self url websocket ss58 preset urp wo ad ar = .ret () st) :
    st.request_id = 1 ∧ st.payloads = Self.payloads
      ∧ st.config = { use_remote_preset := true, auto_discover := true, auto_reconnect := true }
      ∧ st.url = url := by
  unfold init_client at h
  by_cases hargs : (url.length = 0 ∧ websocket = 0) ∨ (url.length > 0 ∧ websocket ≠ 0)
  · rw [if_pos hargs] at h
    cases h
  · rw [if_neg hargs] at h
    cases preset with
    | none => cases h
    | some p =>
      simp only [] at h
      obtain ⟨_, st4, hc, hk⟩ := Outcome.bind_eq_ret _ _ _ _ h
      cases hk
      obtain ⟨h1, h2, h3⟩ := init_client_connect_frame nd _ websocket _ st4 hc
      refine ⟨?_, ?_, ?_, ?_⟩
      · cases wo <;> exact h1
      · cases wo <;> exact h2
      · cases urp <;> cases ad <;> cases ar <;> rfl
      · cases wo <;> exact h3

/-! Facts about the accessors, `init_runtime` and the cache -/

theorem sc_get_block_runtime_version_trace (nd : Node) (fuel : Nat) (runv : Runtime_Version)
    (h : String) (st : Client) :
    ∃ k, (0 < fuel → 0 < st.websocket → 0 < k)
      ∧ st.after_calls "chain_getRuntimeVersion" [h] k
          (sc_get_block_runtime_version nd fuel runv h st).state := by
  obtain ⟨k, h1, h2⟩ := guarded_rpc_trace nd "chain_getRuntimeVersion" [h] fuel st
  refine ⟨k, h1, ?_⟩
  unfold sc_get_block_runtime_version
  cases hp : possibly_exit_rudely st with
  | ret u s1 =>
    rw [hp] at h2
    simp only [Outcome.bind] at h2 ⊢
    cases hr : rpc_request nd "chain_getRuntimeVersion" [h] fuel s1 with
    | ret buf s2 =>
      rw [hr] at h2
      cases buf with
      | none => exact h2
      | some b =>
        simp only []
        split <;> exact h2
    | exited msg s2 => rw [hr] at h2; exact h2
    | crashed s2 => rw [hr] at h2; exact h2
    | waiting s2 => rw [hr] at h2; exact h2
  | exited msg s1 => rw [hp] at h2; exact h2
  | crashed s1 => rw [hp] at h2; exact h2
  | waiting s1 => rw [hp] at h2; exact h2

theorem sc_get_metadata_trace (nd : Node) (fuel : Nat) (h : String) (st : Client) :
    ∃ k, st.after_calls "state_getMetadata" [h] k (sc_get_metadata nd fuel (some h) st).state := by
  obtain ⟨k, _, h2⟩ := guarded_rpc_trace nd "state_getMetadata" [h] fuel st
  exact ⟨k, h2⟩

theorem cache_metadata_state (buf : String) (st : Client) : (cache_metadata buf st).state = st := by
  unfold cache_metadata
  split <;> rfl

/-- The requests made after the header fetch: with `h` the active block hash and
`p` the `parent_hash` of the header response, all of them carry the single
parameter `h` when `p` is the genesis sentinel and `p` otherwise. -/
theorem after_header_requests (nd : Node) (fuel : Nat) (grv : Runtime_Version)
    (buf : Option String) (st : Client) (h p : String)
    (hh : st.block_hash = h) (hp : (nd.parse_and_cache_block buf "getHeader").parent_hash = p) :
    ∃ k l, (init_runtime_after_header nd fuel grv buf st).state.payloads
        = st.payloads
          ++ envelopes "chain_getRuntimeVersion" [if p = genesis_sentinel then h else p]
              st.request_id k
          ++ l
      ∧ (0 < fuel → 0 < st.websocket → 0 < k)
      ∧ (∀ pl ∈ l, pl.method = "state_getMetadata"
          ∧ pl.params = [if p = genesis_sentinel then h else p])
      ∧ (h ≠ genesis_sentinel → (if p = genesis_sentinel then h else p) ≠ genesis_sentinel) := by
  subst hh hp
  unfold init_runtime_after_header
  simp only []
  generalize hx : (if (nd.parse_and_cache_block buf "getHeader").parent_hash = genesis_sentinel
    then st.block_hash else (nd.parse_and_cache_block buf "getHeader").parent_hash) = x
  obtain ⟨k, hk1, hk2⟩ := sc_get_block_runtime_version_trace nd fuel grv x st
  have hlast : st.block_hash ≠ genesis_sentinel → x ≠ genesis_sentinel := by
    intro hne
    rw [← hx]
    split
    · exact hne
    · assumption
  refine ⟨k, ?_⟩
  suffices hs : ∃ l, (Outcome.bind (sc_get_block_runtime_version nd fuel grv x st) _).state.payloads
      = st.payloads ++ envelopes "chain_getRuntimeVersion" [x] st.request_id k ++ l
      ∧ ∀ pl ∈ l, pl.method = "state_getMetadata" ∧ pl.params = [x] by
    obtain ⟨l, h1, h2⟩ := hs
    exact ⟨l, h1, hk1, h2, hlast⟩
  refine Outcome.bind_state _ _
    (fun s => ∃ l, s.payloads
      = st.payloads ++ envelopes "chain_getRuntimeVersion" [x] st.request_id k ++ l
      ∧ ∀ pl ∈ l, pl.method = "state_getMetadata" ∧ pl.params = [x]) ?_ ?_
  · exact ⟨[], by simpa using hk2.2.2, by simp⟩
  · intro run_v st1 ho
    rw [ho] at hk2
    simp only [Outcome.state] at hk2
    by_cases hv : st1.runtime_version = run_v.spec_version
    · rw [if_pos hv]
      exact ⟨[], by simpa using hk2.2.2, by simp⟩
    · rw [if_neg hv]
      split
      · exact ⟨[], by simpa using hk2.2.2, by simp⟩
      · refine Outcome.bind_state _ _
          (fun s => ∃ l, s.payloads
            = st.payloads ++ envelopes "chain_getRuntimeVersion" [x] st.request_id k ++ l
            ∧ ∀ pl ∈ l, pl.method = "state_getMetadata" ∧ pl.params = [x]) ?_ ?_
        · obtain ⟨j, hj⟩ := sc_get_metadata_trace nd fuel x
            { st1 with runtime_version := run_v.spec_version,
                       transaction_version := run_v.transaction_version }
          refine ⟨envelopes "state_getMetadata" [x] st1.request_id j, ?_,
            fun pl hpl => envelopes_mem _ _ _ _ pl hpl⟩
          rw [hj.2.2]
          simp only []
          rw [hk2.2.2]
        · intro meta st3 hm
          obtain ⟨j, hj⟩ := sc_get_metadata_trace nd fuel x
            { st1 with runtime_version := run_v.spec_version,
                       transaction_version := run_v.transaction_version }
          rw [hm] at hj
          simp only [Outcome.state] at hj
          have hst3 : ∃ l, st3.payloads
              = st.payloads ++ envelopes "chain_getRuntimeVersion" [x] st.request_id k ++ l
              ∧ ∀ pl ∈ l, pl.method = "state_getMetadata" ∧ pl.params = [x] := by
            refine ⟨envelopes "state_getMetadata" [x] st1.request_id j, ?_,
              fun pl hpl => envelopes_mem _ _ _ _ pl hpl⟩
            rw [hj.2.2]
            simp only []
            rw [hk2.2.2]
          cases meta with
          | none => exact hst3
          | some mm =>
            simp only []
            rw [cache_metadata_state]
            exact hst3

theorem init_runtime_after_header_keeps (nd : Node) (fuel : Nat) (grv : Runtime_Version)
    (buf : Option String) (st : Client) :
    (init_runtime_after_header nd fuel grv buf st).state.block_hash = st.block_hash
      ∧ (init_runtime_after_header nd fuel grv buf st).state.block_id = st.block_id
      ∧ (init_runtime_after_header nd fuel grv buf st).state.m_cache = st.m_cache := by
  unfold init_runtime_after_header
  simp only []
  generalize (if (nd.parse_and_cache_block buf "getHeader").parent_hash = genesis_sentinel
    then st.block_hash else (nd.parse_and_cache_block buf "getHeader").parent_hash) = x
  obtain ⟨k, _, hk⟩ := sc_get_block_runtime_version_trace nd fuel grv x st
  have key : ∀ s : Client, s.rest = st.rest →
      s.block_hash = st.block_hash ∧ s.block_id = st.block_id ∧ s.m_cache = st.m_cache := by
    intro s hs
    obtain ⟨_, _, h3, h4, _, _, h7, _⟩ := Client.rest_fields _ _ hs
    exact ⟨h3, h4, h7⟩
  refine Outcome.bind_state _ _
    (fun s => s.block_hash = st.block_hash ∧ s.block_id = st.block_id ∧ s.m_cache = st.m_cache)
    (key _ hk.1) ?_
  intro run_v st1 ho
  rw [ho] at hk
  have h1 := key st1 hk.1
  by_cases hv : st1.runtime_version = run_v.spec_version
  · rw [if_pos hv]
    exact h1
  · rw [if_neg hv]
    split
    · exact h1
    · obtain ⟨j, hj⟩ := sc_get_metadata_trace nd fuel x
        { st1 with runtime_version := run_v.spec_version,
                   transaction_version := run_v.transaction_version }
      have h2 := Client.rest_fields _ _ hj.1
      refine Outcome.bind_state _ _
        (fun s => s.block_hash = st.block_hash ∧ s.block_id = st.block_id
          ∧ s.m_cache = st.m_cache) ?_ ?_
      · exact ⟨h2.2.2.1.trans h1.1, h2.2.2.2.1.trans h1.2.1, h2.2.2.2.2.2.2.1.trans h1.2.2⟩
      · intro meta st3 hm
        rw [hm] at h2
        simp only [Outcome.state] at h2
        have h3 : st3.block_hash = st.block_hash ∧ st3.block_id = st.block_id
            ∧ st3.m_cache = st.m_cache :=
          ⟨h2.2.2.1.trans h1.1, h2.2.2.2.1.trans h1.2.1, h2.2.2.2.2.2.2.1.trans h1.2.2⟩
        cases meta with
        | none => exact h3
        | some mm =>
          simp only []
          rw [cache_metadata_state]
          exact h3

theorem resolve_block_hash_rest (nd : Node) (fuel : Nat) (gh : String) (bid : Option String)
    (st : Client) : (resolve_block_hash nd fuel gh bid st).state.rest = st.rest := by
  unfold resolve_block_hash
  simp only []
  have second : ∀ (b : String) (s : Client), s.rest = st.rest →
      (if b.length ≠ 0 then
          (sc_get_chain_head nd fuel s).bind fun r st2 => .ret (nd.clear_n_copy b r) st2
        else Outcome.ret b s).state.rest = st.rest := by
    intro b s hs
    by_cases hb : b.length ≠ 0
    · rw [if_pos hb]
      obtain ⟨k, _, hk⟩ := guarded_rpc_trace nd "chain_getHead" [] fuel s
      refine Outcome.bind_state _ _ (fun x => x.rest = st.rest) (hk.1.trans hs) ?_
      intro r st2 hr
      unfold sc_get_chain_head at hr
      rw [hr] at hk
      exact hk.1.trans hs
    · rw [if_neg hb]
      exact hs
  cases bid with
  | none =>
    simp only [Outcome.bind]
    exact second gh st rfl
  | some id =>
    simp only []
    obtain ⟨k, _, hk⟩ := guarded_rpc_trace nd "chain_getBlockHash" [id] fuel st
    have first : ((sc_get_block_hash nd fuel id st).bind fun r st1 =>
        Outcome.ret (nd.clear_n_copy gh r) st1).state.rest = st.rest := by
      refine Outcome.bind_state _ _ (fun x => x.rest = st.rest) hk.1 ?_
      intro r st1 hr
      unfold sc_get_block_hash at hr
      rw [hr] at hk
      exact hk.1
    refine Outcome.bind_state _ _ (fun x => x.rest = st.rest) first ?_
    intro b s hb
    rw [hb] at first
    exact second b s first

theorem no_metadata_fetch_refl (st : Client) : no_metadata_fetch st st :=
  ⟨rfl, [], by simp, by simp⟩

theorem no_metadata_fetch_trans (a b c : Client) (h1 : no_metadata_fetch a b)
    (h2 : no_metadata_fetch b c) : no_metadata_fetch a c := by
  obtain ⟨m1, l1, p1, q1⟩ := h1
  obtain ⟨m2, l2, p2, q2⟩ := h2
  refine ⟨m2.trans m1, l1 ++ l2, by rw [p2, p1, List.append_assoc], ?_⟩
  intro pl hpl
  rcases List.mem_append.mp hpl with h | h
  · exact q1 pl h
  · exact q2 pl h

theorem no_metadata_fetch_of_after_calls (st s : Client) (m : String) (ps : List String)
    (k : Nat) (h : st.after_calls m ps k s) (hm : m ≠ "state_getMetadata") :
    no_metadata_fetch st s := by
  refine ⟨(Client.rest_fields _ _ h.1).2.2.2.2.2.2.1, _, h.2.2, ?_⟩
  intro pl hpl
  rw [(envelopes_mem _ _ _ _ pl hpl).1]
  exact hm

theorem resolve_block_hash_no_metadata (nd : Node) (fuel : Nat) (gh : String)
    (bid : Option String) (st : Client) :
    no_metadata_fetch st (resolve_block_hash nd fuel gh bid st).state := by
  unfold resolve_block_hash
  simp only []
  have second : ∀ (b : String) (s : Client), no_metadata_fetch st s →
      no_metadata_fetch st
        (if b.length ≠ 0 then
          (sc_get_chain_head nd fuel s).bind fun r st2 => .ret (nd.clear_n_copy b r) st2
        else Outcome.ret b s).state := by
    intro b s hs
    by_cases hb : b.length ≠ 0
    · rw [if_pos hb]
      obtain ⟨k, _, hk⟩ := guarded_rpc_trace nd "chain_getHead" [] fuel s
      have hk2 := no_metadata_fetch_trans _ _ _ hs
        (no_metadata_fetch_of_after_calls _ _ _ _ _ hk (by decide))
      refine Outcome.bind_state _ _ (fun x => no_metadata_fetch st x) hk2 ?_
      intro r st2 hr
      unfold sc_get_chain_head at hr
      rw [hr] at hk2
      exact hk2
    · rw [if_neg hb]
      exact hs
  cases bid with
  | none =>
    simp only [Outcome.bind]
    exact second gh st (no_metadata_fetch_refl st)
  | some id =>
    simp only []
    obtain ⟨k, _, hk⟩ := guarded_rpc_trace nd "chain_getBlockHash" [id] fuel st
    have hk2 := no_metadata_fetch_of_after_calls _ _ _ _ _ hk (by decide)
    have first : no_metadata_fetch st ((sc_get_block_hash nd fuel id st).bind fun r st1 =>
        Outcome.ret (nd.clear_n_copy gh r) st1).state := by
      refine Outcome.bind_state _ _ (fun x => no_metadata_fetch st x) hk2 ?_
      intro r st1 hr
      unfold sc_get_block_hash at hr
      rw [hr] at hk2
      exact hk2
    refine Outcome.bind_state _ _ (fun x => no_metadata_fetch st x) first ?_
    intro b s hb
    rw [hb] at first
    exact second b s first

theorem init_runtime_after_header_no_metadata (nd : Node) (fuel : Nat) (grv : Runtime_Version)
    (buf : Option String) (st : Client) (hc : st.m_cache = []) :
    no_metadata_fetch st (init_runtime_after_header nd fuel grv buf st).state := by
  unfold init_runtime_after_header
  simp only []
  generalize (if (nd.parse_and_cache_block buf "getHeader").parent_hash = genesis_sentinel
    then st.block_hash else (nd.parse_and_cache_block buf "getHeader").parent_hash) = x
  obtain ⟨k, _, hk⟩ := sc_get_block_runtime_version_trace nd fuel grv x st
  have hk2 := no_metadata_fetch_of_after_calls _ _ _ _ _ hk (by decide)
  refine Outcome.bind_state _ _ (fun s => no_metadata_fetch st s) hk2 ?_
  intro run_v st1 ho
  rw [ho] at hk2
  simp only [Outcome.state] at hk2
  by_cases hv : st1.runtime_version = run_v.spec_version
  · rw [if_pos hv]
    exact hk2
  · rw [if_neg hv]
    have hempty : metadata_is_cached
        { st1 with runtime_version := run_v.spec_version,
                   transaction_version := run_v.transaction_version } = false := by
      simp [metadata_is_cached, hk2.1, hc]
    rw [if_pos hempty]
    exact hk2

/-- From the empty cache (the only cache `cache_metadata` ever leaves behind),
no run of `init_runtime` requests metadata or adds a cache entry. -/
theorem init_runtime_never_fetches_metadata (nd : Node) (fuel : Nat) (gh : String)
    (grv : Runtime_Version) (bh bid : Option String) (st : Client) (hc : st.m_cache = []) :
    (init_runtime nd fuel gh grv bh bid st).state.m_cache = []
      ∧ ∃ l, (init_runtime nd fuel gh grv bh bid st).state.payloads = st.payloads ++ l
          ∧ ∀ pl ∈ l, pl.method ≠ "state_getMetadata" := by
  suffices h : no_metadata_fetch st (init_runtime nd fuel gh grv bh bid st).state by
    exact ⟨h.1.trans hc, h.2⟩
  unfold init_runtime
  split
  · exact no_metadata_fetch_refl st
  · split
    · exact no_metadata_fetch_refl st
    · have hres := resolve_block_hash_no_metadata nd fuel gh bid st
      refine Outcome.bind_state _ _ (fun s => no_metadata_fetch st s) hres ?_
      intro h st1 hr
      rw [hr] at hres
      simp only [Outcome.state] at hres
      obtain ⟨k, _, _, hk⟩ := rpc_request_trace nd "chain_getHeader"
        [nd.clear_n_copy st1.block_hash (some h)] fuel
        { st1 with block_hash := nd.clear_n_copy st1.block_hash (some h),
                   block_id := nd.hex_to_int bid }
      have hk2 := no_metadata_fetch_of_after_calls _ _ _ _ _ hk (by decide)
      have hk3 : no_metadata_fetch st1
          (rpc_request nd "chain_getHeader" [nd.clear_n_copy st1.block_hash (some h)] fuel
            { st1 with block_hash := nd.clear_n_copy st1.block_hash (some h),
                       block_id := nd.hex_to_int bid }).state := hk2
      have hhead := no_metadata_fetch_trans _ _ _ hres hk3
      refine Outcome.bind_state _ _ (fun s => no_metadata_fetch st s) hhead ?_
      intro buf st3 hh
      rw [hh] at hhead
      simp only [Outcome.state] at hhead
      exact no_metadata_fetch_trans _ _ _ hhead
        (init_runtime_after_header_no_metadata nd fuel grv buf st3 (hhead.1.trans hc))

/-! Runs of the dispatcher that return -/

/-- With room below `INT_MAX` for the `k` invocations of a call, fresh ids stay
fresh. -/
theorem ids_fresh_after_calls (st s : Client) (m : String) (ps : List String) (k : Nat)
    (h : st.after_calls m ps k s) (h1 : -2147483648 ≤ st.request_id)
    (h2 : st.request_id + (k : Int) ≤ 2147483647) (hf : ids_fresh st) : ids_fresh s := by
  obtain ⟨_, a2, a3⟩ := h
  obtain ⟨e1, e2⟩ := envelopes_of_room m ps st.request_id k h1 h2
  rw [e1] at a3
  rw [e2] at a2
  obtain ⟨f1, f2⟩ := hf
  constructor
  · rw [a3, List.map_append, List.pairwise_append]
    refine ⟨f1, consecutive_envelopes_ids_increasing m ps _ k, ?_⟩
    intro x hx y hy
    simp only [List.mem_map] at hx hy
    obtain ⟨p, hp, rfl⟩ := hx
    obtain ⟨q, hq, rfl⟩ := hy
    have := f2 p hp
    have := (consecutive_envelopes_id_bounds m ps _ k q hq).1
    omega
  · intro pl hpl
    rw [a3, List.mem_append] at hpl
    rw [a2]
    rcases hpl with hpl | hpl
    · have := f2 pl hpl
      omega
    · exact (consecutive_envelopes_id_bounds m ps _ k pl hpl).2

/-- Whatever `Self.chain` holds, a `sc_chain` call on a live channel builds a
`system_chain` envelope with the id the counter had on entry. -/
theorem sc_chain_always_requests (nd : Node) (fuel : Nat) (st : Client)
    (hw : 0 < st.websocket) (hf : 0 < fuel) :
    ({ jsonrpc := "2.0", method := "system_chain", params := [], id := st.request_id }
        : Payload) ∈ (sc_chain nd fuel st).state.payloads := by
  obtain ⟨k, h1, h2⟩ := guarded_rpc_trace nd "system_chain" [] fuel st
  have hk := h1 hf hw
  have key : ∀ s : Client, st.after_calls "system_chain" [] k s →
      ({ jsonrpc := "2.0", method := "system_chain", params := [], id := st.request_id }
          : Payload) ∈ s.payloads := by
    intro s hs
    obtain ⟨_, _, a3⟩ := hs
    obtain ⟨j, rfl⟩ : ∃ j, k = j + 1 := ⟨k - 1, by omega⟩
    rw [a3, envelopes_succ]
    simp
  unfold sc_chain
  cases hp : possibly_exit_rudely st with
  | ret u s1 =>
    rw [hp] at h2
    simp only [Outcome.bind] at h2 ⊢
    cases hr : rpc_request nd "system_chain" [] fuel s1 with
    | ret buf s2 =>
      rw [hr] at h2
      have := key s2 h2
      cases buf with
      | none => exact this
      | some b =>
        simp only []
        split <;> exact this
    | exited msg s2 => rw [hr] at h2; exact key _ h2
    | crashed s2 => rw [hr] at h2; exact key _ h2
    | waiting s2 => rw [hr] at h2; exact key _ h2
  | exited msg s1 => rw [hp] at h2; exact key _ h2
  | crashed s1 => rw [hp] at h2; exact key _ h2
  | waiting s1 => rw [hp] at h2; exact key _ h2

/-! Claim C1 -/

/-- C1 (counterexample).  The call reserves id 1, the next inbound message is a
non-error record tagged 7, and `rpc_request` returns that record's result. -/
theorem rpc_request_answers_foreign_id :
    demo_client.request_id = 1
      ∧ (1 : Int) ≠ 7
      ∧ node_foreign_id.parse_json_string demo_client.recvd
          = { id := 7, result := some "foreign", err_flag := false }
      ∧ (rpc_request node_foreign_id "system_chain" [] 1 demo_client).state.payloads
          = [{ jsonrpc := "2.0", method := "system_chain", params := [], id := 1 }]
      ∧ (rpc_request node_foreign_id "system_chain" [] 1 demo_client).value
          = some (some "foreign") := by
  decide

/-- C1 (amended).  For all ids `a` and `b`, equal or not: when `rpc_request` has
reserved id `a`, its send succeeds and the next inbound message decodes to a
non-error record with id `b` and result `s`, the call whose envelope carries `a`
returns `s`.  The live code pairs a response with a call by arrival order: on
every path and with any fuel, the value `rpc_request` returns is the same when
the ids of the inbound records are replaced by any others. -/
theorem rpc_request_pairs_by_arrival (nd : Node) (m : String) (ps : List String) (fuel : Nat)
    (st : Client) (a b : Int) (s : String)
    (ha : st.request_id = a) (hws : st.websocket ≠ 0)
    (hsend : nd.websocket_send st.sends ≠ -1)
    (hr : nd.parse_json_string st.recvd = { id := b, result := some s, err_flag := false }) :
    (rpc_request nd m ps (fuel + 1) st).value = some (some s)
      ∧ (rpc_request nd m ps (fuel + 1) st).state.payloads
          = st.payloads ++ [{ jsonrpc := "2.0", method := m, params := ps, id := a }]
      ∧ ∀ (g : Nat → Int) (fuel2 : Nat) (st2 : Client),
          (rpc_request (nd.retag g) m ps fuel2 st2).value = (rpc_request nd m ps fuel2 st2).value := by
  subst ha
  refine ⟨?_, ?_, fun g fuel2 st2 => rpc_request_ignores_ids nd g m ps fuel2 st2⟩
  · simp [rpc_request, await_response, hws, hsend, hr, Outcome.value]
  · simp [rpc_request, await_response, hws, hsend, hr, Outcome.state, append_rpc_message]

/-- C1 (witness). -/
theorem rpc_request_pairs_by_arrival_witness :
    (rpc_request node_foreign_id "system_chain" [] 1 demo_client).value = some (some "foreign")
      ∧ (rpc_request node_foreign_id "system_chain" [] 1 demo_client).state.payloads
          = demo_client.payloads
            ++ [{ jsonrpc := "2.0", method := "system_chain", params := [], id := 1 }]
      ∧ (rpc_request (node_foreign_id.retag fun _ => 1) "system_chain" [] 1 demo_client).value
          = (rpc_request node_foreign_id "system_chain" [] 1 demo_client).value := by
  obtain ⟨h1, h2, h3⟩ := rpc_request_pairs_by_arrival node_foreign_id "system_chain" [] 0
    demo_client 1 7 "foreign" (by decide) (by decide) (by decide) (by decide)
  exact ⟨h1, h2, h3 (fun _ => 1) 1 demo_client⟩

/-! Claim C2 -/

/-- C3 (counterexample).  With the counter at `INT_MAX` one invocation of
`rpc_request` leaves it at `INT_MIN`, not one higher, and the next call uses an
id below the one before it. -/
theorem request_id_wraps_at_int_max :
    demo_client_at_int_max.request_id = 2147483647
      ∧ (rpc_request demo_node "system_chain" [] 1 demo_client_at_int_max).state.request_id
          = -2147483648
      ∧ (rpc_request demo_node "system_chain" [] 1
          (rpc_request demo_node "system_chain" [] 1
            demo_client_at_int_max).state).state.payloads.map Payload.id
          = [2147483647, -2147483648] := by
  decide

/-- C3 (amended).  (1) After `init_client` the request id counter is 1 (and on a
process that has built no envelope yet, the ids used so far are trivially
fresh).  (2) A call of `rpc_request` with fuel for at least one invocation makes
`k ≥ 1` invocations (the caller's and one per reconnect retry); each puts the
current counter value into its envelope and increments the `int` counter.
(3) While the counter has room for these `k` increments below `INT_MAX`, each
increment is by exactly one: the new envelopes carry
`request_id, request_id + 1, ..., request_id + k - 1`, the counter ends at
`request_id + k`, and the ids used stay strictly increasing with no id used
twice. -/
theorem request_id_counter :
    (∀ (nd : Node) (gh : String) (gw : Ws_option) (Self : Client) (url : String)
        (websocket ss58 : Int) (preset : Option String) (urp : Bool) (wo : Option Ws_option)
        (ad ar : Bool) (st : Client),
        init_client nd gh gw Self url websocket ss58 preset urp wo ad ar = .ret () st →
          st.request_id = 1 ∧ (Self.payloads = [] → ids_fresh st))
      ∧ (∀ (nd : Node) (m : String) (ps : List String) (fuel : Nat) (st : Client),
          ∃ k, k ≤ fuel ∧ (0 < fuel → 0 < k)
            ∧ (rpc_request nd m ps fuel st).state.request_id = counter_after st.request_id k
            ∧ (rpc_request nd m ps fuel st).state.payloads
                = st.payloads ++ envelopes m ps st.request_id k
            ∧ (-2147483648 ≤ st.request_id → st.request_id + (k : Int) ≤ 2147483647 →
                (rpc_request nd m ps fuel st).state.request_id = st.request_id + (k : Int)
                  ∧ (rpc_request nd m ps fuel st).state.payloads
                      = st.payloads ++ consecutive_envelopes m ps st.request_id k
                  ∧ (ids_fresh st →
                      ids_fresh (rpc_request nd m ps fuel st).state
                        ∧ ((rpc_request nd m ps fuel st).state.payloads.map
                            Payload.id).Nodup))) := by
  refine ⟨?_, ?_⟩
  · intro nd gh gw Self url websocket ss58 preset urp wo ad ar st h
    obtain ⟨h1, h2, _⟩ := init_client_ret nd gh gw Self url websocket ss58 preset urp wo ad ar st h
    refine ⟨h1, fun he => ?_⟩
    rw [he] at h2
    simp [ids_fresh, h2]
  · intro nd m ps fuel st
    obtain ⟨k, h1, h2, h3⟩ := rpc_request_trace nd m ps fuel st
    refine ⟨k, h1, h2, h3.2.1, h3.2.2, ?_⟩
    intro hlo hhi
    obtain ⟨e1, e2⟩ := envelopes_of_room m ps st.request_id k hlo hhi
    refine ⟨by rw [h3.2.1, e2], by rw [h3.2.2, e1], ?_⟩
    intro hf
    have hfr := ids_fresh_after_calls st _ m ps k h3 hlo hhi hf
    exact ⟨hfr, hfr.1.imp (fun hab => ne_of_lt hab)⟩

/-- C3 (witness). -/
theorem request_id_counter_witness :
    demo_client.request_id = 1
      ∧ ids_fresh demo_client
      ∧ ids_fresh (rpc_request demo_node "system_chain" [] 1 demo_client).state := by
  have h0 := request_id_counter.1 demo_node "" ⟨0, 0, 0⟩ Self0 "ws://node" 0 0 (some "default")
    false none false false demo_client (by decide)
  obtain ⟨k, hk, _, _, _, hroom⟩ :=
    request_id_counter.2 demo_node "system_chain" [] 1 demo_client
  have hid := h0.1
  exact ⟨h0.1, h0.2 rfl,
    ((hroom (by rw [hid]; omega) (by rw [hid]; omega)).2.2 (h0.2 rfl)).1⟩

/-! Claim C4 -/

/-- C4 (the code at the failing input).  `cache_metadata` never changes the
client: from the empty cache, with 100 as the active runtime version,
`cache_metadata("0xmeta")` returns with the cache still empty and
`metadata_is_cached()` still false. -/
theorem cache_metadata_stores_nothing :
    (∀ (buf : String) (st : Client), (cache_metadata buf st).state = st)
      ∧ cache_metadata "0xmeta" { demo_client with runtime_version := 100 }
          = .ret () { demo_client with runtime_version := 100 }
      ∧ (cache_metadata "0xmeta" { demo_client with runtime_version := 100 }).state.m_cache = []
      ∧ metadata_is_cached
          (cache_metadata "0xmeta" { demo_client with runtime_version := 100 }).state = false := by
  refine ⟨?_, by decide, by decide, by decide⟩
  intro buf st
  unfold cache_metadata
  split <;> rfl

/-! Claim C5 -/

/-- C5 (the code at the failing input).  Active runtime version 0, empty cache,
the node reports spec version 100: `init_runtime` updates the active versions
and returns without any `state_getMetadata` request and with the cache still
empty.  With an entry for 100 in the cache the same call does request the
metadata (and then stops in `cache_metadata`). -/
theorem init_runtime_cache_test_inverted :
    init_runtime node_runtime 1 "" ⟨0, 0⟩ none (some "0x10") demo_client_at_block
        = .ret () (init_runtime node_runtime 1 "" ⟨0, 0⟩ none (some "0x10")
            demo_client_at_block).state
      ∧ demo_client_at_block.runtime_version = 0
      ∧ demo_client_at_block.m_cache = []
      ∧ (init_runtime node_runtime 1 "" ⟨0, 0⟩ none (some "0x10")
          demo_client_at_block).state.runtime_version = 100
      ∧ (init_runtime node_runtime 1 "" ⟨0, 0⟩ none (some "0x10")
          demo_client_at_block).state.transaction_version = 7
      ∧ (init_runtime node_runtime 1 "" ⟨0, 0⟩ none (some "0x10")
          demo_client_at_block).state.m_cache = []
      ∧ (init_runtime node_runtime 1 "" ⟨0, 0⟩ none (some "0x10")
          demo_client_at_block).state.payloads.map Payload.method
          = ["chain_getBlockHash", "chain_getHead", "chain_getHeader", "chain_getRuntimeVersion"]
      ∧ (init_runtime node_runtime 1 "" ⟨0, 0⟩ none (some "0x10")
          { demo_client_at_block with
            m_cache := [{ runtime_v := 100, metadata := "0xmeta" }] }).state.payloads.map
            Payload.method
          = ["chain_getBlockHash", "chain_getHead", "chain_getHeader", "chain_getRuntimeVersion",
             "state_getMetadata"] := by
  decide

/-! Claim C6 -/

/-- C6 (counterexample).  The node reports the all-zero hash as chain head and as
the parent hash of its header: the resolved hash is the sentinel, and
`init_runtime` requests the runtime version at the sentinel. -/
theorem init_runtime_fetches_at_sentinel :
    (init_runtime node_sentinel_head 1 "" ⟨0, 0⟩ none (some "0x10")
        demo_client_at_block).state.block_hash = genesis_sentinel
      ∧ (init_runtime node_sentinel_head 1 "" ⟨0, 0⟩ none (some "0x10")
        demo_client_at_block).state.payloads.map (fun pl => (pl.method, pl.params))
        = [("chain_getBlockHash", ["0x10"]), ("chain_getHead", []),
           ("chain_getHeader", [genesis_sentinel]),
           ("chain_getRuntimeVersion", [genesis_sentinel])] := by
  decide

/-- C6 (amended).  In `init_runtime`, past the guards, let `h` be the resolved
block hash as stored in `Self.block_hash` and `p` the `parent_hash` of the
header the node returned for `h`.  Then `h` is still the active block hash at
the end of the run, and every request made after the header fetch carries the
single parameter `h` when `p` is the genesis sentinel and `p` otherwise: first
the `chain_getRuntimeVersion` envelopes (at least one when the channel is up),
then any `state_getMetadata` envelopes.  The sentinel is the hash of these
requests exactly when `p` and the resolved hash `h` are both the sentinel. -/
theorem init_runtime_runtime_hash (nd : Node) (fuel : Nat) (gh : String)
    (grv : Runtime_Version) (bh bid : Option String) (st : Client)
    (hg : ¬ ((bid.isSome = true ∧ gh.length ≠ 0)
        ∨ (gh.length ≠ 0 ∧ st.block_hash = gh)
        ∨ (bid.isSome = true ∧ st.block_id = nd.hex_to_int bid)))
    (h0 : String) (st1 : Client)
    (hres : resolve_block_hash nd fuel gh bid st = .ret h0 st1)
    (h p : String) (hh : nd.clear_n_copy st.block_hash (some h0) = h)
    (buf : Option String) (st3 : Client)
    (hhdr : rpc_request nd "chain_getHeader" [h] fuel
        { st1 with block_hash := h, block_id := nd.hex_to_int bid } = .ret buf st3)
    (hp : (nd.parse_and_cache_block buf "getHeader").parent_hash = p) :
    (init_runtime nd fuel gh grv bh bid st).state.block_hash = h
      ∧ ∃ k l, (init_runtime nd fuel gh grv bh bid st).state.payloads
          = st3.payloads
            ++ envelopes "chain_getRuntimeVersion" [if p = genesis_sentinel then h else p]
                st3.request_id k
            ++ l
        ∧ (0 < st3.websocket → 0 < k)
        ∧ (∀ pl ∈ l, pl.method = "state_getMetadata"
            ∧ pl.params = [if p = genesis_sentinel then h else p])
        ∧ ((if p = genesis_sentinel then h else p) = genesis_sentinel
            ↔ (p = genesis_sentinel ∧ h = genesis_sentinel)) := by
  have h1 : ¬ (bid.isSome = true ∧ gh.length ≠ 0) := fun x => hg (Or.inl x)
  have h2 : ¬ ((gh.length ≠ 0 ∧ st.block_hash = gh)
      ∨ (bid.isSome = true ∧ st.block_id = nd.hex_to_int bid)) := by
    intro x
    rcases x with x | x
    · exact hg (Or.inr (Or.inl x))
    · exact hg (Or.inr (Or.inr x))
  have hfuel : 0 < fuel := by
    cases fuel with
    | zero => simp [rpc_request] at hhdr
    | succ n => omega
  have hrest := resolve_block_hash_rest nd fuel gh bid st
  rw [hres] at hrest
  simp only [Outcome.state] at hrest
  have hb : st1.block_hash = st.block_hash := (Client.rest_fields _ _ hrest).2.2.1
  obtain ⟨j, _, _, hj⟩ := rpc_request_trace nd "chain_getHeader" [h] fuel
    { st1 with block_hash := h, block_id := nd.hex_to_int bid }
  rw [hhdr] at hj
  have h3 : st3.block_hash = h := (Client.rest_fields _ _ hj.1).2.2.1
  have hrun : init_runtime nd fuel gh grv bh bid st
      = init_runtime_after_header nd fuel grv buf st3 := by
    unfold init_runtime
    rw [if_neg h1, if_neg h2, hres]
    simp only [Outcome.bind]
    rw [hb, hh, hhdr]
  rw [hrun]
  refine ⟨(init_runtime_after_header_keeps nd fuel grv buf st3).1.trans h3, ?_⟩
  obtain ⟨k, l, a1, a2, a3, _⟩ := after_header_requests nd fuel grv buf st3 h p h3 hp
  refine ⟨k, l, a1, a2 hfuel, a3, ?_⟩
  by_cases hps : p = genesis_sentinel
  · rw [if_pos hps]
    exact ⟨fun hx => ⟨hps, hx⟩, fun hx => hx.2⟩
  · rw [if_neg hps]
    exact ⟨fun hx => absurd hx hps, fun hx => absurd hx.1 hps⟩

/-- C6 (witness): a genesis header, whose parent hash is the sentinel; the runtime
version is requested at the resolved hash `0xhead`, which is not the sentinel. -/
theorem init_runtime_runtime_hash_witness :
    (init_runtime node_genesis 1 "" ⟨0, 0⟩ none (some "0x10") demo_client_at_block).state.block_hash
        = "0xhead"
      ∧ ∃ k l, (init_runtime node_genesis 1 "" ⟨0, 0⟩ none (some "0x10")
            demo_client_at_block).state.payloads
          = (rpc_request node_genesis "chain_getHeader" ["0xhead"] 1
              { (resolve_block_hash node_genesis 1 "" (some "0x10") demo_client_at_block).state with
                block_hash := "0xhead"
                block_id := node_genesis.hex_to_int (some "0x10") }).state.payloads
            ++ envelopes "chain_getRuntimeVersion"
                [if genesis_sentinel = genesis_sentinel then "0xhead" else genesis_sentinel]
                (rpc_request node_genesis "chain_getHeader" ["0xhead"] 1
                  { (resolve_block_hash node_genesis 1 "" (some "0x10")
                      demo_client_at_block).state with
                    block_hash := "0xhead"
                    block_id := node_genesis.hex_to_int (some "0x10") }).state.request_id k
            ++ l
        ∧ 0 < k
        ∧ (if genesis_sentinel = genesis_sentinel then "0xhead" else genesis_sentinel)
            ≠ genesis_sentinel := by
  obtain ⟨a, k, l, b1, b2, _, b4⟩ := init_runtime_runtime_hash node_genesis 1 "" ⟨0, 0⟩ none
    (some "0x10") demo_client_at_block (by decide) "0xhead"
    (resolve_block_hash node_genesis 1 "" (some "0x10") demo_client_at_block).state
    (by decide) "0xhead" genesis_sentinel (by decide) (some genesis_sentinel)
    (rpc_request node_genesis "chain_getHeader" ["0xhead"] 1
      { (resolve_block_hash node_genesis 1 "" (some "0x10") demo_client_at_block).state with
        block_hash := "0xhead"
        block_id := node_genesis.hex_to_int (some "0x10") }).state
    (by decide) (by decide)
  exact ⟨a, k, l, b1, b2 (by decide), fun hx => absurd (b4.1 hx).2 (by decide)⟩

/-! Claim C7 -/

/-- C7 (counterexample).  The active block is block 5 with hash `0x01d`; the node
answers the runtime version request with an error.  `init_runtime` returns with
the active block hash and block id already overwritten. -/
theorem init_runtime_not_atomic :
    node_runtime_fails.parse_json_string 3
        = { id := 4, result := some "Error: unknown block", err_flag := true }
      ∧ demo_client_at_block.block_hash = "0x01d"
      ∧ demo_client_at_block.block_id = 5
      ∧ init_runtime node_runtime_fails 1 "" ⟨0, 0⟩ none (some "0x10") demo_client_at_block
          = .ret () (init_runtime node_runtime_fails 1 "" ⟨0, 0⟩ none (some "0x10")
              demo_client_at_block).state
      ∧ (init_runtime node_runtime_fails 1 "" ⟨0, 0⟩ none (some "0x10")
          demo_client_at_block).state.block_hash = "0xhead"
      ∧ (init_runtime node_runtime_fails 1 "" ⟨0, 0⟩ none (some "0x10")
          demo_client_at_block).state.block_id = 16 := by
  decide

/-- C7 (amended).  `init_runtime` is all-or-nothing only up to the resolution of
the block hash.  (1) When it returns at one of its two initial guards the client
is untouched.  (2) Past the guards, once the block-hash and chain-head lookups
have returned (with a value or with `NULL`), the active block hash and block id
are written before the header request and are still those values at the end of
the run, whatever the header, runtime-version and metadata requests do.  (3) If
the lookups do not return, the four active fields are unchanged. -/
theorem init_runtime_commits_block_first (nd : Node) (fuel : Nat) (gh : String)
    (grv : Runtime_Version) (bh bid : Option String) (st : Client) :
    ((bid.isSome = true ∧ gh.length ≠ 0)
        ∨ (gh.length ≠ 0 ∧ st.block_hash = gh)
        ∨ (bid.isSome = true ∧ st.block_id = nd.hex_to_int bid) →
      init_runtime nd fuel gh grv bh bid st = .ret () st)
    ∧ (¬ ((bid.isSome = true ∧ gh.length ≠ 0)
        ∨ (gh.length ≠ 0 ∧ st.block_hash = gh)
        ∨ (bid.isSome = true ∧ st.block_id = nd.hex_to_int bid)) →
      (∀ h st1, resolve_block_hash nd fuel gh bid st = .ret h st1 →
        (init_runtime nd fuel gh grv bh bid st).state.block_hash
            = nd.clear_n_copy st.block_hash (some h)
          ∧ (init_runtime nd fuel gh grv bh bid st).state.block_id = nd.hex_to_int bid)
      ∧ ((∀ h st1, resolve_block_hash nd fuel gh bid st ≠ .ret h st1) →
        (init_runtime nd fuel gh grv bh bid st).state.block_hash = st.block_hash
          ∧ (init_runtime nd fuel gh grv bh bid st).state.block_id = st.block_id
          ∧ (init_runtime nd fuel gh grv bh bid st).state.runtime_version = st.runtime_version
          ∧ (init_runtime nd fuel gh grv bh bid st).state.transaction_version
              = st.transaction_version)) := by
  constructor
  · intro hg
    unfold init_runtime
    by_cases h1 : bid.isSome = true ∧ gh.length ≠ 0
    · rw [if_pos h1]
    · rw [if_neg h1]
      have h2 : (gh.length ≠ 0 ∧ st.block_hash = gh)
          ∨ (bid.isSome = true ∧ st.block_id = nd.hex_to_int bid) := by
        rcases hg with hg | hg | hg
        · exact absurd hg h1
        · exact Or.inl hg
        · exact Or.inr hg
      rw [if_pos h2]
  · intro hg
    have h1 : ¬ (bid.isSome = true ∧ gh.length ≠ 0) := fun h => hg (Or.inl h)
    have h2 : ¬ ((gh.length ≠ 0 ∧ st.block_hash = gh)
        ∨ (bid.isSome = true ∧ st.block_id = nd.hex_to_int bid)) := by
      intro h
      rcases h with h | h
      · exact hg (Or.inr (Or.inl h))
      · exact hg (Or.inr (Or.inr h))
    have hrest := resolve_block_hash_rest nd fuel gh bid st
    constructor
    · intro h st1 hres
      unfold init_runtime
      rw [if_neg h1, if_neg h2, hres]
      rw [hres] at hrest
      simp only [Outcome.state] at hrest
      have hb : st1.block_hash = st.block_hash := (Client.rest_fields _ _ hrest).2.2.1
      simp only [Outcome.bind]
      rw [hb]
      obtain ⟨k, _, _, hk⟩ := rpc_request_trace nd "chain_getHeader"
        [nd.clear_n_copy st.block_hash (some h)] fuel
        { st1 with block_hash := nd.clear_n_copy st.block_hash (some h),
                   block_id := nd.hex_to_int bid }
      have hf := Client.rest_fields _ _ hk.1
      refine Outcome.bind_state _ _
        (fun s => s.block_hash = nd.clear_n_copy st.block_hash (some h)
          ∧ s.block_id = nd.hex_to_int bid) ⟨hf.2.2.1, hf.2.2.2.1⟩ ?_
      intro buf st3 hh
      rw [hh] at hf
      simp only [Outcome.state] at hf
      obtain ⟨k1, k2, _⟩ := init_runtime_after_header_keeps nd fuel grv buf st3
      exact ⟨k1.trans hf.2.2.1, k2.trans hf.2.2.2.1⟩
    · intro hno
      unfold init_runtime
      rw [if_neg h1, if_neg h2]
      have hf := Client.rest_fields _ _ hrest
      cases hres : resolve_block_hash nd fuel gh bid st with
      | ret h st1 => exact absurd hres (hno h st1)
      | exited msg s =>
        rw [hres] at hf
        exact ⟨hf.2.2.1, hf.2.2.2.1, hf.2.2.2.2.1, hf.2.2.2.2.2.1⟩
      | crashed s =>
        rw [hres] at hf
        exact ⟨hf.2.2.1, hf.2.2.2.1, hf.2.2.2.2.1, hf.2.2.2.2.2.1⟩
      | waiting s =>
        rw [hres] at hf
        exact ⟨hf.2.2.1, hf.2.2.2.1, hf.2.2.2.2.1, hf.2.2.2.2.2.1⟩

/-- C7 (witness): the run of the counterexample. -/
theorem init_runtime_commits_block_first_witness :
    (init_runtime node_runtime_fails 1 "" ⟨0, 0⟩ none (some "0x10")
        demo_client_at_block).state.block_hash
        = node_runtime_fails.clear_n_copy demo_client_at_block.block_hash (some "0xhead")
      ∧ (init_runtime node_runtime_fails 1 "" ⟨0, 0⟩ none (some "0x10")
        demo_client_at_block).state.block_id
        = node_runtime_fails.hex_to_int (some "0x10") :=
  ((init_runtime_commits_block_first node_runtime_fails 1 "" ⟨0, 0⟩ none (some "0x10")
      demo_client_at_block).2 (by decide)).1 "0xhead"
    (resolve_block_hash node_runtime_fails 1 "" (some "0x10") demo_client_at_block).state
    (by decide)

/-! Claim C8 -/

/-- C8 (the code at the failing input).  The first `sc_chain` call returns
"Polkadot" and stores it.  The second call returns the stored "Polkadot" too, but
only after sending a second `system_chain` request (id 2) and consuming its
response: the counter goes from 2 to 3. -/
theorem sc_chain_requests_again :
    (sc_chain node_renamed 1 demo_client).value = some (some "Polkadot")
      ∧ (sc_chain node_renamed 1 demo_client).state.chain = some "Polkadot"
      ∧ (sc_chain node_renamed 1 demo_client).state.request_id = 2
      ∧ (sc_chain node_renamed 1 (sc_chain node_renamed 1 demo_client).state).value
          = some (some "Polkadot")
      ∧ (sc_chain node_renamed 1 (sc_chain node_renamed 1 demo_client).state).state.request_id = 3
      ∧ (sc_chain node_renamed 1 (sc_chain node_renamed 1 demo_client).state).state.sends = 2
      ∧ (sc_chain node_renamed 1 (sc_chain node_renamed 1 demo_client).state).state.payloads
          = [{ jsonrpc := "2.0", method := "system_chain", params := [], id := 1 },
             { jsonrpc := "2.0", method := "system_chain", params := [], id := 2 }]
      ∧ (sc_chain node_renamed 1
          (sc_chain node_renamed 1 demo_client).state).state.queued
          = [some { id := 1, result := some "Polkadot", err_flag := false },
             some { id := 2, result := some "Kusama", err_flag := false }] := by
  decide

/-! Claim C9 -/

/-- C9 (counterexample).  The first two sends fail: one caller-level `rpc_request`
reconnects twice and sends three envelopes, and the caller gets the result of
the third inbound message, while the retried call returned "second". -/
theorem rpc_request_retries_twice :
    (rpc_request node_two_drops "system_chain" [] 3 demo_client).state.connects
        = demo_client.connects + 2
      ∧ (rpc_request node_two_drops "system_chain" [] 3 demo_client).state.sends
        = demo_client.sends + 3
      ∧ (rpc_request node_two_drops "system_chain" [] 3 demo_client).value
        = some (some "third")
      ∧ (rpc_request node_two_drops "system_chain" [] 2
          (connect_websocket node_two_drops
            { demo_client with
              req_nodes := [none]
              request_id := 2
              payloads := [{ jsonrpc := "2.0", method := "system_chain", params := [], id := 1 }]
              sends := 1 }).state).value
        = some (some "second") := by
  decide

/-- C9 (amended).  With auto-reconnect on and a `ws://` or `wss://` url, every
failed send costs exactly one reconnect and one nested retry of the whole call
with the next request id: when the next `k` sends fail and the one after is
accepted (each reconnect yielding a descriptor), one caller-level `rpc_request`
makes exactly `k` reconnects and `k + 1` sends, one envelope per send, whatever
the node answers; while the counter has room below `INT_MAX` the `k + 1`
envelopes carry consecutive ids. -/
theorem rpc_request_one_reconnect_per_failed_send (nd : Node) (m : String) (ps : List String)
    (k : Nat) : ∀ (fuel : Nat) (st : Client),
    st.websocket ≠ 0 → st.config.auto_reconnect = true → st.url.length > 0 →
    (nd.slice st.url 0 6 = "wss://" ∨ nd.slice st.url 0 5 = "ws://") →
    (∀ i, i < k → nd.websocket_send (st.sends + i) = -1) →
    nd.websocket_send (st.sends + k) ≠ -1 →
    (∀ i, i < k → ∃ fd, nd.libwsclient_new (st.connects + i) = some fd ∧ 0 < fd) →
    k < fuel →
    (rpc_request nd m ps fuel st).state.connects = st.connects + k
      ∧ (rpc_request nd m ps fuel st).state.sends = st.sends + k + 1
      ∧ (rpc_request nd m ps fuel st).state.payloads
          = st.payloads ++ envelopes m ps st.request_id (k + 1)
      ∧ (-2147483648 ≤ st.request_id → st.request_id + (k : Int) ≤ 2147483647 →
          (rpc_request nd m ps fuel st).state.payloads
            = st.payloads ++ consecutive_envelopes m ps st.request_id (k + 1)) := by
  suffices main : ∀ (k fuel : Nat) (st : Client),
      st.websocket ≠ 0 → st.config.auto_reconnect = true → st.url.length > 0 →
      (nd.slice st.url 0 6 = "wss://" ∨ nd.slice st.url 0 5 = "ws://") →
      (∀ i, i < k → nd.websocket_send (st.sends + i) = -1) →
      nd.websocket_send (st.sends + k) ≠ -1 →
      (∀ i, i < k → ∃ fd, nd.libwsclient_new (st.connects + i) = some fd ∧ 0 < fd) →
      k < fuel →
      (rpc_request nd m ps fuel st).state.connects = st.connects + k
        ∧ (rpc_request nd m ps fuel st).state.sends = st.sends + k + 1
        ∧ (rpc_request nd m ps fuel st).state.payloads
            = st.payloads ++ envelopes m ps st.request_id (k + 1) by
    intro fuel st hws hcfg hurl hscheme hfail hok hconn hfuel
    obtain ⟨a1, a2, a3⟩ := main k fuel st hws hcfg hurl hscheme hfail hok hconn hfuel
    refine ⟨a1, a2, a3, fun hlo hhi => ?_⟩
    rw [a3, envelopes_consecutive_of_room m ps st.request_id (k + 1) hlo
      (by push_cast; omega)]
  intro k
  induction k with
  | zero =>
    intro fuel st hws _ _ _ _ hok _ hfuel
    obtain ⟨n, rfl⟩ : ∃ n, fuel = n + 1 := ⟨fuel - 1, by omega⟩
    have hrun : rpc_request nd m ps (n + 1) st
        = await_response nd st.req_nodes.length (n + 1)
            { st with req_nodes := st.req_nodes ++ [none],
                      request_id := wrap_int (st.request_id + 1),
                      payloads := st.payloads ++ [⟨"2.0", m, ps, st.request_id⟩],
                      sends := st.sends + 1 } := by
      rw [rpc_request]
      simp only [ne_eq, hws, not_false_eq_true, if_true]
      rw [if_neg (by simpa using hok)]
    rw [hrun]
    obtain ⟨_, _, f3, f4, f5, _⟩ := await_response_frame nd st.req_nodes.length (n + 1)
      { st with req_nodes := st.req_nodes ++ [none],
                request_id := wrap_int (st.request_id + 1),
                payloads := st.payloads ++ [⟨"2.0", m, ps, st.request_id⟩],
                sends := st.sends + 1 }
    refine ⟨by simpa using f5, by simpa using f4, ?_⟩
    rw [f3]
    simp [envelopes]
  | succ k ih =>
    intro fuel st hws hcfg hurl hscheme hfail hok hconn hfuel
    obtain ⟨n, rfl⟩ : ∃ n, fuel = n + 1 := ⟨fuel - 1, by omega⟩
    obtain ⟨fd, hfd, hpos⟩ := hconn 0 (by omega)
    simp only [add_zero] at hfd
    have hsend0 : nd.websocket_send st.sends = -1 := by simpa using hfail 0 (by omega)
    have hconnect : connect_websocket nd
        { st with req_nodes := st.req_nodes ++ [none],
                  request_id := wrap_int (st.request_id + 1),
                  payloads := st.payloads ++ [⟨"2.0", m, ps, st.request_id⟩],
                  sends := st.sends + 1 }
        = .ret ()
          { st with req_nodes := st.req_nodes ++ [none],
                    request_id := wrap_int (st.request_id + 1),
                    payloads := st.payloads ++ [⟨"2.0", m, ps, st.request_id⟩],
                    sends := st.sends + 1,
                    connects := st.connects + 1,
                    websocket := fd } := by
      unfold connect_websocket connect_websock
      simp only [hscheme, if_true, hfd, Outcome.bind, possibly_exit_rudely]
      rw [if_neg (by simpa using hpos)]
    obtain ⟨n1, n2, n3⟩ := ih n
      { st with req_nodes := st.req_nodes ++ [none],
                request_id := wrap_int (st.request_id + 1),
                payloads := st.payloads ++ [⟨"2.0", m, ps, st.request_id⟩],
                sends := st.sends + 1,
                connects := st.connects + 1,
                websocket := fd }
      (by simpa using ne_of_gt hpos) hcfg hurl hscheme
      (fun i hi => by
        have := hfail (i + 1) (by omega)
        simpa [Nat.add_assoc, Nat.add_comm 1 i] using this)
      (by
        have := hok
        simpa [Nat.add_assoc, Nat.add_comm 1 k] using this)
      (fun i hi => by
        have := hconn (i + 1) (by omega)
        simpa [Nat.add_assoc, Nat.add_comm 1 i] using this)
      (by omega)
    have hrun : rpc_request nd m ps (n + 1) st
        = (rpc_request nd m ps n
            { st with req_nodes := st.req_nodes ++ [none],
                      request_id := wrap_int (st.request_id + 1),
                      payloads := st.payloads ++ [⟨"2.0", m, ps, st.request_id⟩],
                      sends := st.sends + 1,
                      connects := st.connects + 1,
                      websocket := fd }).bind
            fun _ st4 => await_response nd st.req_nodes.length (n + 1) st4 := by
      rw [rpc_request]
      simp only [ne_eq, hws, not_false_eq_true, if_true, hsend0, hcfg, hurl, and_self]
      rw [hconnect]
      rfl
    rw [hrun]
    refine Outcome.bind_state _ _
      (fun s => s.connects = st.connects + (k + 1) ∧ s.sends = st.sends + (k + 1) + 1
        ∧ s.payloads = st.payloads ++ envelopes m ps st.request_id (k + 1 + 1)) ?_ ?_
    · refine ⟨by rw [n1]; simp only []; omega, by rw [n2]; simp only []; omega, ?_⟩
      rw [n3]
      simp only [List.append_assoc, List.singleton_append]
      rw [envelopes_succ m ps st.request_id (k + 1)]
    · intro _ st4 hn
      rw [hn] at n1 n2 n3
      simp only [Outcome.state] at n1 n2 n3
      obtain ⟨_, _, f3, f4, f5, _⟩ := await_response_frame nd st.req_nodes.length (n + 1) st4
      refine ⟨by rw [f5, n1]; omega, by rw [f4, n2]; omega, ?_⟩
      rw [f3, n3]
      simp only [List.append_assoc, List.singleton_append]
      rw [envelopes_succ m ps st.request_id (k + 1)]

/-- C9 (witness). -/
theorem rpc_request_one_reconnect_per_failed_send_witness :
    (rpc_request node_two_drops "system_chain" [] 3 demo_client).state.connects
        = demo_client.connects + 2
      ∧ (rpc_request node_two_drops "system_chain" [] 3 demo_client).state.sends
        = demo_client.sends + 2 + 1
      ∧ (rpc_request node_two_drops "system_chain" [] 3 demo_client).state.payloads
        = demo_client.payloads
          ++ consecutive_envelopes "system_chain" [] demo_client.request_id (2 + 1) := by
  obtain ⟨a1, a2, _, a4⟩ := rpc_request_one_reconnect_per_failed_send node_two_drops
    "system_chain" [] 2 3 demo_client
    (by decide) (by decide) (by decide) (by decide)
    (fun i hi => by
      have h : i = 0 ∨ i = 1 := by omega
      rcases h with h | h <;> subst h <;> decide)
    (by decide)
    (fun i _ => ⟨5, rfl, by decide⟩)
    (by decide)
  exact ⟨a1, a2, a4 (by decide) (by decide)⟩

/-! Claim C10 -/

/-- C10.  Whatever booleans `init_client` is given for `use_remote_preset`,
`auto_discover` and `auto_reconnect`, the stored config has all three set; so a
caller cannot switch auto-reconnect off, and on a client made by `init_client`
(more generally, on any client with `auto_reconnect` set) the fatal branch of
`rpc_request` that exits with "Error: Could not reach server" is reached only
when the url is empty. -/
theorem init_client_flags_always_true :
    (∀ (nd : Node) (gh : String) (gw : Ws_option) (Self : Client) (url : String)
        (websocket ss58 : Int) (preset : Option String) (urp : Bool) (wo : Option Ws_option)
        (ad ar : Bool) (st : Client),
        init_client nd gh gw Self url websocket ss58 preset urp wo ad ar = .ret () st →
          (st.config.use_remote_preset = true ∧ st.config.auto_discover = true
              ∧ st.config.auto_reconnect = true)
            ∧ ∀ (nd2 : Node) (m : String) (ps : List String) (fuel : Nat) (s : Client),
                rpc_request nd2 m ps fuel st = .exited "Error: Could not reach server" s →
                  url.length = 0)
      ∧ (∀ (nd : Node) (m : String) (ps : List String) (fuel : Nat) (st s : Client),
          st.config.auto_reconnect = true →
            rpc_request nd m ps fuel st = .exited "Error: Could not reach server" s →
              st.url.length = 0) := by
  refine ⟨?_, ?_⟩
  · intro nd gh gw Self url websocket ss58 preset urp wo ad ar st h
    obtain ⟨_, _, hc, hu⟩ := init_client_ret nd gh gw Self url websocket ss58 preset urp wo ad ar st h
    refine ⟨by rw [hc]; exact ⟨rfl, rfl, rfl⟩, ?_⟩
    intro nd2 m ps fuel s hx
    rw [← hu]
    exact rpc_request_fatal_branch nd2 m ps fuel st s (by rw [hc]) hx
  · intro nd m ps fuel st s hcfg hx
    exact rpc_request_fatal_branch nd m ps fuel st s hcfg hx

/-- C10 (witness). -/
theorem init_client_flags_always_true_witness :
    demo_client.config.auto_reconnect = true
      ∧ (rpc_request node_down "system_chain" [] 1 demo_client_fd).value = none
      ∧ demo_client_fd.url.length = 0 :=
  ⟨(init_client_flags_always_true.1 demo_node "" ⟨0, 0, 0⟩ Self0 "ws://node" 0 0
      (some "default") false none false false demo_client (by decide)).1.2.2,
    by decide,
    init_client_flags_always_true.2 node_down "system_chain" [] 1 demo_client_fd
      (rpc_request node_down "system_chain" [] 1 demo_client_fd).state
      (by decide) (by decide)⟩


end SBeta
